import Mathlib

set_option maxRecDepth 100000

attribute [local semireducible] Rat.mul Rat.add Rat.sub Rat.inv

/-
Formal model of the NexusStream order-ingestion core.

Modelling conventions, used throughout:
* JavaScript numbers are modelled as exact rationals (ℚ); `NaN` is a separate
  constructor of the JSON value type.  Counterexamples involving arithmetic are
  chosen over dyadic rationals so that they are also exact in binary64.
* JavaScript `Map` is modelled by an insertion-ordered association list
  (`JsMap`): `set` overwrites in place, `get` returns the first match.
* Ambient effects (`Date.now()`, `new Date(s)`, `uuidv4()`,
  `Date.toISOString`) are passed in explicitly: date behaviour through a
  `DateEnv` record of oracles, fresh identifiers as arguments.
* Quotes inside user-facing message strings of the source are omitted.
-/

/-- A decoded JSON/JavaScript value as it reaches the validators.  `undefJs`
models a key that is present with value `undefined`; `nan` models the number
`NaN` (for which `typeof` is still `number`). -/
inductive Json where
  | null
  | undefJs
  | bool (b : Bool)
  | num (q : ℚ)
  | nan
  | str (s : String)
  | arr (elems : List Json)
  | obj (fields : List (String × Json))
deriving Repr

/-- Structural boolean equality for `Json`. -/
def Json.beq : Json → Json → Bool
  | .null, .null => true
  | .undefJs, .undefJs => true
  | .bool a, .bool b => a = b
  | .num a, .num b => a = b
  | .nan, .nan => true
  | .str a, .str b => a = b
  | .arr a, .arr b => beqList a b
  | .obj a, .obj b => beqFields a b
  | _, _ => false
where
  beqList : List Json → List Json → Bool
    | [], [] => true
    | x :: xs, y :: ys => x.beq y && beqList xs ys
    | _, _ => false
  beqFields : List (String × Json) → List (String × Json) → Bool
    | [], [] => true
    | (k, x) :: xs, (l, y) :: ys => k = l && x.beq y && beqFields xs ys
    | _, _ => false

mutual

theorem Json.beq_refl : (j : Json) → Json.beq j j = true
  | .null => rfl
  | .undefJs => rfl
  | .bool _ => by simp [Json.beq]
  | .num _ => by simp [Json.beq]
  | .nan => rfl
  | .str _ => by simp [Json.beq]
  | .arr xs => Json.beq_refl_list xs
  | .obj fs => Json.beq_refl_fields fs

theorem Json.beq_refl_list : (xs : List Json) → Json.beq.beqList xs xs = true
  | [] => rfl
  | x :: xs => by
      have h1 := Json.beq_refl x
      have h2 := Json.beq_refl_list xs
      simp [Json.beq.beqList, h1, h2]

theorem Json.beq_refl_fields :
    (fs : List (String × Json)) → Json.beq.beqFields fs fs = true
  | [] => rfl
  | (k, x) :: fs => by
      have h1 := Json.beq_refl x
      have h2 := Json.beq_refl_fields fs
      simp [Json.beq.beqFields, h1, h2]

end

mutual

theorem Json.eq_of_beq : {a b : Json} → Json.beq a b = true → a = b
  | .null, b, h => by
      cases b <;> first
        | rfl
        | exact (Bool.false_ne_true h).elim
  | .undefJs, b, h => by
      cases b <;> first
        | rfl
        | exact (Bool.false_ne_true h).elim
  | .bool x, b, h => by
      cases b <;> first
        | exact congrArg Json.bool (of_decide_eq_true h)
        | exact (Bool.false_ne_true h).elim
  | .num x, b, h => by
      cases b <;> first
        | exact congrArg Json.num (of_decide_eq_true h)
        | exact (Bool.false_ne_true h).elim
  | .nan, b, h => by
      cases b <;> first
        | rfl
        | exact (Bool.false_ne_true h).elim
  | .str x, b, h => by
      cases b <;> first
        | exact congrArg Json.str (of_decide_eq_true h)
        | exact (Bool.false_ne_true h).elim
  | .arr xs, b, h => by
      cases b <;> first
        | exact congrArg Json.arr (Json.eq_of_beq_list h)
        | exact (Bool.false_ne_true h).elim
  | .obj fs, b, h => by
      cases b <;> first
        | exact congrArg Json.obj (Json.eq_of_beq_fields h)
        | exact (Bool.false_ne_true h).elim

theorem Json.eq_of_beq_list :
    {xs ys : List Json} → Json.beq.beqList xs ys = true → xs = ys
  | [], [], _ => rfl
  | [], _ :: _, h => (Bool.false_ne_true h).elim
  | _ :: _, [], h => (Bool.false_ne_true h).elim
  | x :: xs, y :: ys, h => by
      simp only [Json.beq.beqList, Bool.and_eq_true] at h
      rw [Json.eq_of_beq h.1, Json.eq_of_beq_list h.2]

theorem Json.eq_of_beq_fields :
    {xs ys : List (String × Json)} → Json.beq.beqFields xs ys = true → xs = ys
  | [], [], _ => rfl
  | [], _ :: _, h => (Bool.false_ne_true h).elim
  | _ :: _, [], h => (Bool.false_ne_true h).elim
  | (k, x) :: xs, (l, y) :: ys, h => by
      simp only [Json.beq.beqFields, Bool.and_eq_true, decide_eq_true_eq] at h
      rw [h.1.1, Json.eq_of_beq h.1.2, Json.eq_of_beq_fields h.2]

end

instance : DecidableEq Json := fun a b =>
  if h : Json.beq a b = true then
    .isTrue (Json.eq_of_beq h)
  else
    .isFalse (fun hab => h (hab ▸ Json.beq_refl a))

/-- JavaScript truthiness of a value (`if (v)`): `null`, `undefined`, `false`,
`0`, `NaN` and the empty string are falsy, everything else is truthy. -/
def Json.truthy : Json → Bool
  | .null => false
  | .undefJs => false
  | .bool b => b
  | .num q => q ≠ 0
  | .nan => false
  | .str s => s ≠ ""
  | .arr _ => true
  | .obj _ => true

/-- Member access on an object's field list: first binding wins; `none` means
the key is absent. -/
def Json.lookup (fields : List (String × Json)) (key : String) : Option Json :=
  (fields.find? (fun e => e.1 = key)).map (·.2)

/-- Source `obj[field]` as a value (a missing key reads as `undefined`). -/
def Json.getD (fields : List (String × Json)) (key : String) : Json :=
  (Json.lookup fields key).getD .undefJs

/-- Insertion-ordered association list, the model of a JavaScript `Map`. -/
abbrev JsMap (κ ν : Type) : Type := List (κ × ν)

/-- Source `Map.prototype.get` (`undefined` becomes `none`). -/
def JsMap.get {κ ν : Type} [DecidableEq κ] : JsMap κ ν → κ → Option ν
  | [], _ => none
  | (k', v') :: m, k => if k' = k then some v' else JsMap.get m k

/-- Source `Map.prototype.has`. -/
def JsMap.has {κ ν : Type} [DecidableEq κ] (m : JsMap κ ν) (k : κ) : Bool :=
  (JsMap.get m k).isSome

/-- Source `Map.prototype.set`: overwrite in place when the key exists, else append. -/
def JsMap.set {κ ν : Type} [DecidableEq κ] : JsMap κ ν → κ → ν → JsMap κ ν
  | [], k, v => [(k, v)]
  | (k', v') :: m, k, v =>
    if k' = k then (k, v) :: m else (k', v') :: JsMap.set m k v

/-- Source `Array.from(m.values())`, in insertion order. -/
def JsMap.values {κ ν : Type} (m : JsMap κ ν) : List ν := m.map (·.2)

theorem JsMap.get_set_self {κ ν : Type} [DecidableEq κ]
    (m : JsMap κ ν) (k : κ) (v : ν) : JsMap.get (JsMap.set m k v) k = some v := by
  induction m with
  | nil => simp [JsMap.set, JsMap.get]
  | cons e m ih =>
    by_cases hek : e.1 = k
    · simp [JsMap.set, JsMap.get, hek]
    · cases e with
      | mk k' v' => simp_all [JsMap.set, JsMap.get, hek]

theorem JsMap.get_set_ne {κ ν : Type} [DecidableEq κ]
    (m : JsMap κ ν) (k k' : κ) (v : ν) (hne : k' ≠ k) :
    JsMap.get (JsMap.set m k v) k' = JsMap.get m k' := by
  induction m with
  | nil => simp [JsMap.set, JsMap.get, Ne.symm hne]
  | cons e m ih =>
    cases e with
    | mk a b =>
      by_cases hak : a = k
      · subst hak
        simp [JsMap.set, JsMap.get, Ne.symm hne]
      · by_cases hak' : a = k'
        · subst hak'
          simp [JsMap.set, JsMap.get, hak, Ne.symm hne]
        · simp_all [JsMap.set, JsMap.get, hak, hak']

/-- The closed partner enumeration. -/
inductive PartnerId where
  | PARTNER_A
  | PARTNER_B
deriving DecidableEq, Repr

/-- The string value of the partner enum member. -/
def PartnerId.toString : PartnerId → String
  | .PARTNER_A => "PARTNER_A"
  | .PARTNER_B => "PARTNER_B"

/-- In-memory per-partner sequence counter (`InMemorySequenceManager`): the
private `sequences : Map<PartnerId, number>` field. -/
structure InMemorySequenceManager where
  sequences : JsMap PartnerId ℕ
deriving DecidableEq, Repr

/-- The freshly constructed manager (`new Map()`). -/
def InMemorySequenceManager.initial : InMemorySequenceManager := ⟨[]⟩

/-- Source `getNextSequence`: read the counter (absent reads as 0), add one, store the
result, return it. -/
def InMemorySequenceManager.getNextSequence (m : InMemorySequenceManager)
    (partnerId : PartnerId) : ℕ × InMemorySequenceManager :=
  let current := (JsMap.get m.sequences partnerId).getD 0
  let next := current + 1
  (next, ⟨JsMap.set m.sequences partnerId next⟩)

/-- Source `getCurrentSequence`: read the counter without incrementing.  The state is
returned alongside, making the absence of mutation a provable statement. -/
def InMemorySequenceManager.getCurrentSequence (m : InMemorySequenceManager)
    (partnerId : PartnerId) : ℕ × InMemorySequenceManager :=
  ((JsMap.get m.sequences partnerId).getD 0, m)

/-- Source `k` successive `getNextSequence` calls for one partner, collecting the
returned values in call order. -/
def InMemorySequenceManager.issue (m : InMemorySequenceManager)
    (partnerId : PartnerId) : ℕ → List ℕ × InMemorySequenceManager
  | 0 => ([], m)
  | k + 1 =>
    let (vs, m') := m.issue partnerId k
    let (v, m'') := m'.getNextSequence partnerId
    (vs ++ [v], m'')

theorem InMemorySequenceManager.issue_eq (p : PartnerId) (c : ℕ) :
    ∀ (k : ℕ) (m : InMemorySequenceManager),
      (JsMap.get m.sequences p).getD 0 = c →
      (m.issue p k).1 = List.range' (c + 1) k ∧
        (JsMap.get ((m.issue p k).2).sequences p).getD 0 = c + k := by
  intro k
  induction k with
  | zero => intro m hm; simpa [InMemorySequenceManager.issue] using hm
  | succ k ih =>
    intro m hm
    obtain ⟨hvals, hctr⟩ := ih m hm
    constructor
    · simp only [InMemorySequenceManager.issue, InMemorySequenceManager.getNextSequence]
      rw [hvals, hctr, List.range'_concat]
      have : c + 1 + 1 * k = c + k + 1 := by ring
      rw [this]
    · simp only [InMemorySequenceManager.issue, InMemorySequenceManager.getNextSequence]
      rw [JsMap.get_set_self]
      simp [hctr]
      omega

/-- Oracles for the ambient JavaScript date facilities: `now` is `Date.now()`
in epoch milliseconds, `parse s` is `new Date(s).getTime()` with `none` for an
invalid date (`NaN`), and `msToISO` is `new Date(ms).toISOString()`. -/
structure DateEnv where
  now : ℚ
  parse : String → Option ℚ
  msToISO : ℚ → String

/-- Typed Partner A input, the payload shape after successful validation. -/
structure PartnerAInput where
  orderId : String
  skuId : String
  customerId : String
  quantity : ℚ
  unitPrice : ℚ
  taxRate : ℚ
  transactionTimeMs : ℚ
  metadata : Option Json := none
deriving DecidableEq, Repr

/-- Typed Partner B input, the payload shape after successful validation. -/
structure PartnerBInput where
  transactionId : String
  itemCode : String
  clientId : String
  qty : ℚ
  price : ℚ
  tax : ℚ
  purchaseTime : String
  notes : Option String := none
deriving DecidableEq, Repr

/-- Source `CreateOrderEventInput`: the normalized order before id, amounts and
timestamps are attached. -/
structure CreateOrderEventInput where
  externalOrderId : String
  partnerId : PartnerId
  productId : String
  customerId : String
  quantity : ℚ
  unitPrice : ℚ
  taxRate : ℚ
  transactionTime : String
  metadata : Option Json := none
deriving DecidableEq, Repr

/-- The canonical `OrderEvent` record. -/
structure OrderEvent where
  id : String
  externalOrderId : String
  partnerId : PartnerId
  sequenceNumber : ℕ
  productId : String
  customerId : String
  quantity : ℚ
  unitPrice : ℚ
  taxRate : ℚ
  grossAmount : ℚ
  taxAmount : ℚ
  netAmount : ℚ
  transactionTime : String
  processedAt : String
  metadata : Option Json := none
deriving DecidableEq, Repr

/-- Source `Math.round`: half-up rounding, halves rounding toward positive infinity. -/
def jsRound (q : ℚ) : ℤ := ⌊q + 1 / 2⌋

/-- The string payload of a value that validation has established to be a
string (the `obj.field as string` cast). -/
def Json.asString : Json → String
  | .str s => s
  | _ => ""

/-- The numeric payload of a value that validation has established to be a
number (the `obj.field as number` cast). -/
def Json.asNum : Json → ℚ
  | .num q => q
  | _ => 0

/-- Source `roundToTwoDecimals`: scaled-integer rounding, `Math.round(v * 100) / 100`. -/
def OrderTransformer.roundToTwoDecimals (value : ℚ) : ℚ :=
  (jsRound (value * 100) : ℚ) / 100

/-- Source `convertMsToISO8601`: `new Date(ms).toISOString()`. -/
def OrderTransformer.convertMsToISO8601 (env : DateEnv) (timestampMs : ℚ) : String :=
  env.msToISO timestampMs

/-- Source `normalizeISO8601`: `new Date(s).toISOString()`.  An unparseable string
would throw in the source; it is modelled as re-emitting epoch 0, and the
processing pipeline only reaches this point on validated timestamps. -/
def OrderTransformer.normalizeISO8601 (env : DateEnv) (timestamp : String) : String :=
  env.msToISO ((env.parse timestamp).getD 0)

/-- Source `convertPercentageToDecimal`. -/
def OrderTransformer.convertPercentageToDecimal (percentage : ℚ) : ℚ :=
  percentage / 100

/-- Source `calculateGrossAmount`: `quantity * unitPrice`. -/
def OrderTransformer.calculateGrossAmount (quantity unitPrice : ℚ) : ℚ :=
  quantity * unitPrice

/-- Source `calculateTaxAmount`: `grossAmount * taxRate`. -/
def OrderTransformer.calculateTaxAmount (grossAmount taxRate : ℚ) : ℚ :=
  grossAmount * taxRate

/-- Source `calculateNetAmount`: `grossAmount + taxAmount`. -/
def OrderTransformer.calculateNetAmount (grossAmount taxAmount : ℚ) : ℚ :=
  grossAmount + taxAmount

/-- Source `transformPartnerA`: rename fields, convert the millisecond timestamp,
keep the decimal tax rate as is. -/
def OrderTransformer.transformPartnerA (env : DateEnv) (input : PartnerAInput) :
    CreateOrderEventInput :=
  { externalOrderId := input.orderId
    partnerId := PartnerId.PARTNER_A
    productId := input.skuId
    customerId := input.customerId
    quantity := input.quantity
    unitPrice := input.unitPrice
    taxRate := input.taxRate
    transactionTime := OrderTransformer.convertMsToISO8601 env input.transactionTimeMs
    metadata := input.metadata }

/-- Source `transformPartnerB`: rename fields, re-emit the ISO timestamp, divide the
percentage tax by 100, wrap truthy `notes` into the metadata object. -/
def OrderTransformer.transformPartnerB (env : DateEnv) (input : PartnerBInput) :
    CreateOrderEventInput :=
  { externalOrderId := input.transactionId
    partnerId := PartnerId.PARTNER_B
    productId := input.itemCode
    customerId := input.clientId
    quantity := input.qty
    unitPrice := input.price
    taxRate := OrderTransformer.convertPercentageToDecimal input.tax
    transactionTime := OrderTransformer.normalizeISO8601 env input.purchaseTime
    metadata :=
      match input.notes with
      | some s => if s ≠ "" then some (Json.obj [("notes", Json.str s)]) else none
      | none => none }

/-- Source `buildOrderEvent`: attach id, sequence number, `processedAt`, and the
derived amounts; the gross, tax and net amounts are computed from the
unrounded intermediates and each stored value is then rounded. -/
def OrderTransformer.buildOrderEvent (uuid processedAt : String)
    (input : CreateOrderEventInput) (sequenceNumber : ℕ) : OrderEvent :=
  let grossAmount := OrderTransformer.calculateGrossAmount input.quantity input.unitPrice
  let taxAmount := OrderTransformer.calculateTaxAmount grossAmount input.taxRate
  let netAmount := OrderTransformer.calculateNetAmount grossAmount taxAmount
  { id := uuid
    externalOrderId := input.externalOrderId
    partnerId := input.partnerId
    sequenceNumber := sequenceNumber
    productId := input.productId
    customerId := input.customerId
    quantity := input.quantity
    unitPrice := OrderTransformer.roundToTwoDecimals input.unitPrice
    taxRate := input.taxRate
    grossAmount := OrderTransformer.roundToTwoDecimals grossAmount
    taxAmount := OrderTransformer.roundToTwoDecimals taxAmount
    netAmount := OrderTransformer.roundToTwoDecimals netAmount
    transactionTime := input.transactionTime
    processedAt := processedAt
    metadata := input.metadata }

/-- Source `fromPartnerA`: full Partner A transformation. -/
def OrderTransformer.fromPartnerA (env : DateEnv) (uuid processedAt : String)
    (input : PartnerAInput) (sequenceNumber : ℕ) : OrderEvent :=
  OrderTransformer.buildOrderEvent uuid processedAt
    (OrderTransformer.transformPartnerA env input) sequenceNumber

/-- Source `fromPartnerB`: full Partner B transformation. -/
def OrderTransformer.fromPartnerB (env : DateEnv) (uuid processedAt : String)
    (input : PartnerBInput) (sequenceNumber : ℕ) : OrderEvent :=
  OrderTransformer.buildOrderEvent uuid processedAt
    (OrderTransformer.transformPartnerB env input) sequenceNumber

/-- A collected field-level validation error (`ValidationError`). -/
structure ValidationErr where
  field : String
  message : String
  receivedValue : Option Json := none
  expectedType : Option String := none
deriving DecidableEq, Repr

/-- Outcome of a validator run (`ValidationResult<T>`): either the typed value
with an empty error list, or the collected errors. -/
inductive ValidationResult (α : Type) where
  | ok (data : α)
  | fail (errors : List ValidationErr)
deriving DecidableEq

/-- The `isValid` flag of a validation result. -/
def ValidationResult.isValid {α : Type} : ValidationResult α → Bool
  | .ok _ => true
  | .fail _ => false

/-- The `errors` list of a validation result. -/
def ValidationResult.errorList {α : Type} : ValidationResult α → List ValidationErr
  | .ok _ => []
  | .fail es => es

/-- Source `validateRequired`: the key must be present and neither null nor
undefined.  Returns the check outcome together with the errors it pushed. -/
def BaseValidator.validateRequired (obj : List (String × Json)) (field : String) :
    Bool × List ValidationErr :=
  match Json.lookup obj field with
  | none =>
    (false, [{ field := field, message := "Missing required field: " ++ field,
               receivedValue := none, expectedType := some "required" }])
  | some v =>
    if v = Json.null ∨ v = Json.undefJs then
      (false, [{ field := field,
                 message := "Field " ++ field ++ " cannot be null or undefined",
                 receivedValue := some v, expectedType := some "non-null" }])
    else
      (true, [])

/-- Source `String.prototype.trim`: strip leading and trailing whitespace. -/
def jsTrim (s : String) : String :=
  String.mk (((s.toList.dropWhile Char.isWhitespace).reverse.dropWhile
    Char.isWhitespace).reverse)

/-- Source `validateString`: must be a string whose trimmed length reaches
`minLength` (trimming is used only for this test, the value is not changed). -/
def BaseValidator.validateString (value : Json) (field : String)
    (minLength : ℕ := 1) : Bool × List ValidationErr :=
  match value with
  | .str s =>
    if (jsTrim s).length < minLength then
      (false, [{ field := field,
                 message := "Field " ++ field ++ " must have at least " ++
                   toString minLength ++ " character(s)",
                 receivedValue := some value,
                 expectedType := some ("string (min length: " ++ toString minLength ++ ")") }])
    else
      (true, [])
  | _ =>
    (false, [{ field := field, message := "Field " ++ field ++ " must be a string",
               receivedValue := some value, expectedType := some "string" }])

/-- Source `validatePositiveNumber`: a number (not `NaN`), strictly positive, or
merely non-negative when `allowZero` is set. -/
def BaseValidator.validatePositiveNumber (value : Json) (field : String)
    (allowZero : Bool := false) : Bool × List ValidationErr :=
  match value with
  | .num q =>
    if ¬allowZero ∧ q ≤ 0 then
      (false, [{ field := field,
                 message := "Field " ++ field ++ " must be a positive number",
                 receivedValue := some value, expectedType := some "positive number" }])
    else if allowZero ∧ q < 0 then
      (false, [{ field := field,
                 message := "Field " ++ field ++ " cannot be negative",
                 receivedValue := some value, expectedType := some "non-negative number" }])
    else
      (true, [])
  | _ =>
    (false, [{ field := field,
               message := "Field " ++ field ++ " must be a valid number",
               receivedValue := some value, expectedType := some "number" }])

/-- Source `validateTimestampMs`: a number inside the plausibility window from
2000-01-01 to `Date.now()` plus one hundred 365-day years. -/
def BaseValidator.validateTimestampMs (now : ℚ) (value : Json) (field : String) :
    Bool × List ValidationErr :=
  match value with
  | .num q =>
    let minTimestamp : ℚ := 946684800000
    let maxTimestamp : ℚ := now + 100 * 365 * 24 * 60 * 60 * 1000
    if q < minTimestamp ∨ q > maxTimestamp then
      (false, [{ field := field,
                 message := "Field " ++ field ++ " must be a valid timestamp in milliseconds",
                 receivedValue := some value,
                 expectedType := some "timestamp (milliseconds since Unix epoch)" }])
    else
      (true, [])
  | _ =>
    (false, [{ field := field,
               message := "Field " ++ field ++ " must be a valid timestamp (number)",
               receivedValue := some value, expectedType := some "timestamp (milliseconds)" }])

/-- Source `validateISO8601Timestamp`: a string for which `new Date(value)` is a
valid date under the ambient parser. -/
def BaseValidator.validateISO8601Timestamp (parse : String → Option ℚ)
    (value : Json) (field : String) : Bool × List ValidationErr :=
  match value with
  | .str s =>
    match parse s with
    | none =>
      (false, [{ field := field,
                 message := "Field " ++ field ++ " must be a valid ISO 8601 timestamp",
                 receivedValue := some value,
                 expectedType := some "ISO 8601 timestamp (e.g., 2024-01-15T10:30:00.000Z)" }])
    | some _ => (true, [])
  | _ =>
    (false, [{ field := field, message := "Field " ++ field ++ " must be a string",
               receivedValue := some value, expectedType := some "ISO 8601 timestamp string" }])

/-- Source `validateTaxRate`: a number between 0 and 1 (decimal form) or between 0
and 100 (percentage form). -/
def BaseValidator.validateTaxRate (value : Json) (field : String)
    (isPercentage : Bool := false) : Bool × List ValidationErr :=
  match value with
  | .num q =>
    let maxValue : ℚ := if isPercentage then 100 else 1
    if q < 0 ∨ q > maxValue then
      (false, [{ field := field,
                 message := "Field " ++ field ++ " must be between 0 and " ++
                   (if isPercentage then "100" else "1"),
                 receivedValue := some value,
                 expectedType := some (if isPercentage then "percentage (0-100)" else "decimal (0-1)") }])
    else
      (true, [])
  | _ =>
    (false, [{ field := field,
               message := "Field " ++ field ++ " must be a valid number",
               receivedValue := some value, expectedType := some "number" }])

/-- Partner A `validateQuantity`: a number, an integer, strictly positive. -/
def PartnerAValidator.validateQuantity (value : Json) : Bool × List ValidationErr :=
  match value with
  | .num q =>
    if ¬(q.den = 1) then
      (false, [{ field := "quantity", message := "Quantity must be an integer",
                 receivedValue := some value, expectedType := some "positive integer" }])
    else if q ≤ 0 then
      (false, [{ field := "quantity", message := "Quantity must be a positive integer",
                 receivedValue := some value, expectedType := some "positive integer" }])
    else
      (true, [])
  | _ =>
    (false, [{ field := "quantity", message := "Quantity must be a valid number",
               receivedValue := some value, expectedType := some "positive integer" }])

/-- Partner B `validateQuantity` (field name `qty`). -/
def PartnerBValidator.validateQuantity (value : Json) : Bool × List ValidationErr :=
  match value with
  | .num q =>
    if ¬(q.den = 1) then
      (false, [{ field := "qty", message := "Quantity must be an integer",
                 receivedValue := some value, expectedType := some "positive integer" }])
    else if q ≤ 0 then
      (false, [{ field := "qty", message := "Quantity must be a positive integer",
                 receivedValue := some value, expectedType := some "positive integer" }])
    else
      (true, [])
  | _ =>
    (false, [{ field := "qty", message := "Quantity must be a valid number",
               receivedValue := some value, expectedType := some "positive integer" }])

/-- Source `PartnerAValidator.validate`.  Phase 1 checks presence of every required
key; a failure there returns all presence errors and skips the rest.  Phase 2
checks type and value of every field; a failure returns all collected phase-2
errors.  Finally the optional `metadata` is checked. -/
def PartnerAValidator.validate (now : ℚ) (input : Json) :
    ValidationResult PartnerAInput :=
  match input with
  | .obj obj =>
    let r1 := BaseValidator.validateRequired obj "orderId"
    let r2 := BaseValidator.validateRequired obj "skuId"
    let r3 := BaseValidator.validateRequired obj "customerId"
    let r4 := BaseValidator.validateRequired obj "quantity"
    let r5 := BaseValidator.validateRequired obj "unitPrice"
    let r6 := BaseValidator.validateRequired obj "taxRate"
    let r7 := BaseValidator.validateRequired obj "transactionTimeMs"
    if r1.1 && r2.1 && r3.1 && r4.1 && r5.1 && r6.1 && r7.1 then
      let v1 := BaseValidator.validateString (Json.getD obj "orderId") "orderId"
      let v2 := BaseValidator.validateString (Json.getD obj "skuId") "skuId"
      let v3 := BaseValidator.validateString (Json.getD obj "customerId") "customerId"
      let v4 := PartnerAValidator.validateQuantity (Json.getD obj "quantity")
      let v5 := BaseValidator.validatePositiveNumber (Json.getD obj "unitPrice") "unitPrice"
      let v6 := BaseValidator.validateTaxRate (Json.getD obj "taxRate") "taxRate" false
      let v7 := BaseValidator.validateTimestampMs now (Json.getD obj "transactionTimeMs") "transactionTimeMs"
      if v1.1 && v2.1 && v3.1 && v4.1 && v5.1 && v6.1 && v7.1 then
        let metadata := Json.getD obj "metadata"
        if metadata ≠ Json.undefJs ∧ metadata ≠ Json.null then
          match metadata with
          | .obj _ =>
            .ok { orderId := (Json.getD obj "orderId").asString
                  skuId := (Json.getD obj "skuId").asString
                  customerId := (Json.getD obj "customerId").asString
                  quantity := (Json.getD obj "quantity").asNum
                  unitPrice := (Json.getD obj "unitPrice").asNum
                  taxRate := (Json.getD obj "taxRate").asNum
                  transactionTimeMs := (Json.getD obj "transactionTimeMs").asNum
                  metadata := if metadata.truthy then some metadata else none }
          | _ =>
            .fail [{ field := "metadata", message := "Metadata must be an object",
                     receivedValue := some metadata, expectedType := some "object" }]
        else
          .ok { orderId := (Json.getD obj "orderId").asString
                skuId := (Json.getD obj "skuId").asString
                customerId := (Json.getD obj "customerId").asString
                quantity := (Json.getD obj "quantity").asNum
                unitPrice := (Json.getD obj "unitPrice").asNum
                taxRate := (Json.getD obj "taxRate").asNum
                transactionTimeMs := (Json.getD obj "transactionTimeMs").asNum
                metadata := if metadata.truthy then some metadata else none }
      else
        .fail (v1.2 ++ v2.2 ++ v3.2 ++ v4.2 ++ v5.2 ++ v6.2 ++ v7.2)
    else
      .fail (r1.2 ++ r2.2 ++ r3.2 ++ r4.2 ++ r5.2 ++ r6.2 ++ r7.2)
  | j =>
    .fail [{ field := "root", message := "Input must be a valid object",
             receivedValue := some j, expectedType := some "object" }]

/-- Source `PartnerBValidator.validate`, with the same two-phase structure as the
Partner A validator. -/
def PartnerBValidator.validate (parse : String → Option ℚ) (input : Json) :
    ValidationResult PartnerBInput :=
  match input with
  | .obj obj =>
    let r1 := BaseValidator.validateRequired obj "transactionId"
    let r2 := BaseValidator.validateRequired obj "itemCode"
    let r3 := BaseValidator.validateRequired obj "clientId"
    let r4 := BaseValidator.validateRequired obj "qty"
    let r5 := BaseValidator.validateRequired obj "price"
    let r6 := BaseValidator.validateRequired obj "tax"
    let r7 := BaseValidator.validateRequired obj "purchaseTime"
    if r1.1 && r2.1 && r3.1 && r4.1 && r5.1 && r6.1 && r7.1 then
      let v1 := BaseValidator.validateString (Json.getD obj "transactionId") "transactionId"
      let v2 := BaseValidator.validateString (Json.getD obj "itemCode") "itemCode"
      let v3 := BaseValidator.validateString (Json.getD obj "clientId") "clientId"
      let v4 := PartnerBValidator.validateQuantity (Json.getD obj "qty")
      let v5 := BaseValidator.validatePositiveNumber (Json.getD obj "price") "price"
      let v6 := BaseValidator.validateTaxRate (Json.getD obj "tax") "tax" true
      let v7 := BaseValidator.validateISO8601Timestamp parse (Json.getD obj "purchaseTime") "purchaseTime"
      if v1.1 && v2.1 && v3.1 && v4.1 && v5.1 && v6.1 && v7.1 then
        let notes := Json.getD obj "notes"
        if notes ≠ Json.undefJs ∧ notes ≠ Json.null then
          match notes with
          | .str _ =>
            .ok { transactionId := (Json.getD obj "transactionId").asString
                  itemCode := (Json.getD obj "itemCode").asString
                  clientId := (Json.getD obj "clientId").asString
                  qty := (Json.getD obj "qty").asNum
                  price := (Json.getD obj "price").asNum
                  tax := (Json.getD obj "tax").asNum
                  purchaseTime := (Json.getD obj "purchaseTime").asString
                  notes := if notes.truthy then some notes.asString else none }
          | _ =>
            .fail [{ field := "notes", message := "Notes must be a string",
                     receivedValue := some notes, expectedType := some "string" }]
        else
          .ok { transactionId := (Json.getD obj "transactionId").asString
                itemCode := (Json.getD obj "itemCode").asString
                clientId := (Json.getD obj "clientId").asString
                qty := (Json.getD obj "qty").asNum
                price := (Json.getD obj "price").asNum
                tax := (Json.getD obj "tax").asNum
                purchaseTime := (Json.getD obj "purchaseTime").asString
                notes := if notes.truthy then some notes.asString else none }
      else
        .fail (v1.2 ++ v2.2 ++ v3.2 ++ v4.2 ++ v5.2 ++ v6.2 ++ v7.2)
    else
      .fail (r1.2 ++ r2.2 ++ r3.2 ++ r4.2 ++ r5.2 ++ r6.2 ++ r7.2)
  | j =>
    .fail [{ field := "root", message := "Input must be a valid object",
             receivedValue := some j, expectedType := some "object" }]

/-- The error-code enumeration (`ErrorCode`). -/
inductive ErrorCode where
  | MISSING_REQUIRED_FIELD
  | INVALID_DATA_TYPE
  | INVALID_VALUE
  | NULL_VALUE
  | NEGATIVE_NUMBER
  | ZERO_VALUE
  | NOT_A_NUMBER
  | INVALID_TIMESTAMP
  | FUTURE_TIMESTAMP
  | DUPLICATE_ORDER
  | TRANSFORMATION_ERROR
  | UNKNOWN_PARTNER
  | INTERNAL_ERROR
deriving DecidableEq, Repr

/-- Payload published on the error-order stream by the feed handler. -/
structure ErrorOrderPayload where
  partnerId : PartnerId
  originalOrderId : Json
  errors : List ValidationErr
  rawInput : Json
  timestamp : ℚ
deriving DecidableEq

/-- Payload published on the valid-order stream by the feed handler. -/
structure ValidOrderPayload where
  orderEvent : OrderEvent
  receivedAt : ℚ
deriving DecidableEq

/-- The in-memory stream bus state: the retained per-kind emission history
(`InMemoryOrderStream`).  Emission appends to the history and synchronously
invokes the subscribers wired up in `createContainer`. -/
structure InMemoryOrderStream where
  validOrderHistory : List ValidOrderPayload
  errorOrderHistory : List ErrorOrderPayload
deriving DecidableEq

/-- One entry of the `details` list the error-order subscriber builds: the
`field` slot is the literal string `validation` and the `message` slot
receives the collected error object itself. -/
structure PersistedErrorDetail where
  field : String
  message : ValidationErr
deriving DecidableEq

/-- The `ErrorEvent` record persisted to the error repository. -/
structure PersistedErrorEvent where
  id : String
  partnerId : PartnerId
  externalOrderId : Json
  errorCode : ErrorCode
  message : String
  details : List PersistedErrorDetail
  originalPayload : Json
  timestamp : String
deriving DecidableEq

/-- The error-order subscriber of `createContainer`: it persists every
rejected payload under a fresh id with the fixed code `INVALID_VALUE`, the
fixed message `Validation failed`, and one `validation`-field detail per
collected error. -/
def errorOrderSubscriberEvent (env : DateEnv) (uuid : String)
    (payload : ErrorOrderPayload) : PersistedErrorEvent :=
  { id := uuid
    partnerId := payload.partnerId
    externalOrderId := payload.originalOrderId
    errorCode := ErrorCode.INVALID_VALUE
    message := "Validation failed"
    details := payload.errors.map (fun e => { field := "validation", message := e })
    originalPayload := payload.rawInput
    timestamp := env.msToISO payload.timestamp }

/-- Source `ErrorRepository.save`: assign a fresh id when the event id is falsy, then
store by id. -/
def ErrorRepository.save (assignId : String)
    (m : JsMap String PersistedErrorEvent) (e : PersistedErrorEvent) :
    JsMap String PersistedErrorEvent :=
  let e := if e.id = "" then { e with id := assignId } else e
  JsMap.set m e.id e

/-- In-memory order repository (`InMemoryOrderRepository`): primary map from
internal id, secondary index from `partnerId:externalOrderId` to internal id. -/
structure InMemoryOrderRepository where
  orders : JsMap String OrderEvent
  externalIdIndex : JsMap String String
deriving DecidableEq

/-- A freshly constructed repository. -/
def InMemoryOrderRepository.empty : InMemoryOrderRepository := ⟨[], []⟩

/-- Source `getExternalKey`: the composite index key `partnerId:externalOrderId`. -/
def InMemoryOrderRepository.getExternalKey (externalOrderId : String)
    (partnerId : PartnerId) : String :=
  partnerId.toString ++ ":" ++ externalOrderId

/-- Source `save`: store the order under its id and point the external-id index at
it. -/
def InMemoryOrderRepository.save (repo : InMemoryOrderRepository)
    (order : OrderEvent) : InMemoryOrderRepository :=
  { orders := JsMap.set repo.orders order.id order
    externalIdIndex :=
      JsMap.set repo.externalIdIndex
        (InMemoryOrderRepository.getExternalKey order.externalOrderId order.partnerId)
        order.id }

/-- Source `saveBatch`: `save` each order in turn. -/
def InMemoryOrderRepository.saveBatch (repo : InMemoryOrderRepository)
    (orders : List OrderEvent) : InMemoryOrderRepository :=
  orders.foldl InMemoryOrderRepository.save repo

/-- Source `findById`. -/
def InMemoryOrderRepository.findById (repo : InMemoryOrderRepository)
    (id : String) : Option OrderEvent :=
  JsMap.get repo.orders id

/-- Source `findByExternalId`: look the id up in the index; a falsy id (missing key
or empty string) yields null; otherwise read the primary map. -/
def InMemoryOrderRepository.findByExternalId (repo : InMemoryOrderRepository)
    (externalOrderId : String) (partnerId : PartnerId) : Option OrderEvent :=
  match JsMap.get repo.externalIdIndex
      (InMemoryOrderRepository.getExternalKey externalOrderId partnerId) with
  | none => none
  | some id => if id = "" then none else JsMap.get repo.orders id

/-- Source `existsByExternalId`: membership in the external-id index. -/
def InMemoryOrderRepository.existsByExternalId (repo : InMemoryOrderRepository)
    (externalOrderId : String) (partnerId : PartnerId) : Bool :=
  JsMap.has repo.externalIdIndex
    (InMemoryOrderRepository.getExternalKey externalOrderId partnerId)

/-- Source `clear`: drop both maps. -/
def InMemoryOrderRepository.clear (_repo : InMemoryOrderRepository) :
    InMemoryOrderRepository :=
  ⟨[], []⟩

/-- Result of processing one feed payload (`FeedProcessingResult`). -/
structure FeedProcessingResult where
  success : Bool
  orderId : Json
  partnerId : PartnerId
  sequenceNumber : Option ℕ := none
  errors : Option (List ValidationErr) := none
deriving DecidableEq

/-- The application state the write path touches: the sequence manager, the
stream histories, and the two repositories wired as stream subscribers in
`createContainer`.  `seqCalls` instruments the model: it counts the
`getNextSequence` invocations. -/
structure SystemState where
  sequenceManager : InMemorySequenceManager
  seqCalls : ℕ
  orderStream : InMemoryOrderStream
  orderRepository : InMemoryOrderRepository
  errorRepository : JsMap String PersistedErrorEvent
deriving DecidableEq

/-- Ambient values consumed by one `processPartner*Order` call: the current
time and the fresh uuids that may be minted along the way. -/
structure Ambient where
  now : ℚ
  eventId : String
  errorId : String
  assignId : String

/-- Source `FeedHandler.processPartnerAOrder`, composed with the two
`createContainer` subscribers (the valid-order subscriber saves the event to
the order repository, the error-order subscriber persists an error event):
validate; on failure emit exactly one error-order; on success draw the next
sequence number, transform, and emit exactly one valid-order. -/
def FeedHandler.processPartnerAOrder (env : DateEnv) (amb : Ambient)
    (sys : SystemState) (input : Json) : FeedProcessingResult × SystemState :=
  let partnerId := PartnerId.PARTNER_A
  let orderId := match input with
    | .obj fs => Json.getD fs "orderId"
    | _ => Json.undefJs
  match PartnerAValidator.validate env.now input with
  | .fail errors =>
    let payload : ErrorOrderPayload :=
      { partnerId := partnerId, originalOrderId := orderId, errors := errors,
        rawInput := input, timestamp := amb.now }
    ({ success := false, orderId := orderId, partnerId := partnerId,
       errors := some errors },
     { sys with
        orderStream :=
          { sys.orderStream with
            errorOrderHistory := sys.orderStream.errorOrderHistory ++ [payload] }
        errorRepository :=
          ErrorRepository.save amb.assignId sys.errorRepository
            (errorOrderSubscriberEvent env amb.errorId payload) })
  | .ok data =>
    let (sequenceNumber, seq') := sys.sequenceManager.getNextSequence partnerId
    let orderEvent :=
      OrderTransformer.fromPartnerA env amb.eventId (env.msToISO amb.now) data sequenceNumber
    let payload : ValidOrderPayload := { orderEvent := orderEvent, receivedAt := amb.now }
    ({ success := true, orderId := orderId, partnerId := partnerId,
       sequenceNumber := some sequenceNumber },
     { sequenceManager := seq'
       seqCalls := sys.seqCalls + 1
       orderStream :=
         { sys.orderStream with
           validOrderHistory := sys.orderStream.validOrderHistory ++ [payload] }
       orderRepository := InMemoryOrderRepository.save sys.orderRepository orderEvent
       errorRepository := sys.errorRepository })

/-- Source `FeedHandler.processPartnerBOrder`, composed with the same subscribers. -/
def FeedHandler.processPartnerBOrder (env : DateEnv) (amb : Ambient)
    (sys : SystemState) (input : Json) : FeedProcessingResult × SystemState :=
  let partnerId := PartnerId.PARTNER_B
  let orderId := match input with
    | .obj fs => Json.getD fs "transactionId"
    | _ => Json.undefJs
  match PartnerBValidator.validate env.parse input with
  | .fail errors =>
    let payload : ErrorOrderPayload :=
      { partnerId := partnerId, originalOrderId := orderId, errors := errors,
        rawInput := input, timestamp := amb.now }
    ({ success := false, orderId := orderId, partnerId := partnerId,
       errors := some errors },
     { sys with
        orderStream :=
          { sys.orderStream with
            errorOrderHistory := sys.orderStream.errorOrderHistory ++ [payload] }
        errorRepository :=
          ErrorRepository.save amb.assignId sys.errorRepository
            (errorOrderSubscriberEvent env amb.errorId payload) })
  | .ok data =>
    let (sequenceNumber, seq') := sys.sequenceManager.getNextSequence partnerId
    let orderEvent :=
      OrderTransformer.fromPartnerB env amb.eventId (env.msToISO amb.now) data sequenceNumber
    let payload : ValidOrderPayload := { orderEvent := orderEvent, receivedAt := amb.now }
    ({ success := true, orderId := orderId, partnerId := partnerId,
       sequenceNumber := some sequenceNumber },
     { sequenceManager := seq'
       seqCalls := sys.seqCalls + 1
       orderStream :=
         { sys.orderStream with
           validOrderHistory := sys.orderStream.validOrderHistory ++ [payload] }
       orderRepository := InMemoryOrderRepository.save sys.orderRepository orderEvent
       errorRepository := sys.errorRepository })

/-- Optional query filters (`OrderQueryFilters`). -/
structure OrderQueryFilters where
  partnerId : Option PartnerId := none
  customerId : Option String := none
  productId : Option String := none
  fromDate : Option ℚ := none
  toDate : Option ℚ := none
  minAmount : Option ℚ := none
  maxAmount : Option ℚ := none
deriving DecidableEq

/-- Sortable fields (`SortOptions['field']`). -/
inductive SortField where
  | processedAt
  | transactionTime
  | grossAmount
  | sequenceNumber
deriving DecidableEq, Repr

/-- Sort direction. -/
inductive SortDirection where
  | asc
  | desc
deriving DecidableEq, Repr

/-- Sort options. -/
structure SortOptions where
  field : SortField
  direction : SortDirection
deriving DecidableEq, Repr

/-- Pagination options; the JavaScript values are numbers, so the fields are
integers here (`parseInt` never produces a fraction). -/
structure PaginationOptions where
  page : ℤ
  pageSize : ℤ
deriving DecidableEq, Repr

/-- A page of results (`PaginatedResult`). -/
structure PaginatedResult where
  data : List OrderEvent
  total : ℕ
  page : ℤ
  pageSize : ℤ
  totalPages : ℤ
  hasMore : Bool
deriving DecidableEq

/-- Source `new Date(s).getTime()` as a sort key; an unparseable string gives `NaN`,
degenerate for sorting either way, modelled as 0. -/
def jsTime (env : DateEnv) (s : String) : ℚ :=
  (env.parse s).getD 0

/-- The per-order filter predicate of `applyFilters`: every present (and
truthy, for the string filters) filter must hold; date bounds compare the
parsed `transactionTime` and never exclude an unparseable time (a `NaN`
comparison is false); amount bounds are inclusive over `grossAmount`. -/
def InMemoryOrderRepository.matchesFilters (env : DateEnv)
    (filters : OrderQueryFilters) (order : OrderEvent) : Bool :=
  let partnerOk := match filters.partnerId with
    | some p => order.partnerId = p
    | none => true
  let customerOk := match filters.customerId with
    | some c => if c ≠ "" then order.customerId = c else true
    | none => true
  let productOk := match filters.productId with
    | some c => if c ≠ "" then order.productId = c else true
    | none => true
  let fromOk := match filters.fromDate with
    | some d =>
      match env.parse order.transactionTime with
      | some t => ¬(t < d)
      | none => true
    | none => true
  let toOk := match filters.toDate with
    | some d =>
      match env.parse order.transactionTime with
      | some t => ¬(t > d)
      | none => true
    | none => true
  let minOk := match filters.minAmount with
    | some m => ¬(order.grossAmount < m)
    | none => true
  let maxOk := match filters.maxAmount with
    | some m => ¬(order.grossAmount > m)
    | none => true
  partnerOk && customerOk && productOk && fromOk && toOk && minOk && maxOk

/-- Source `applyFilters`: keep the orders passing every active filter; absent
filters keep everything. -/
def InMemoryOrderRepository.applyFilters (env : DateEnv)
    (orders : List OrderEvent) (filters : Option OrderQueryFilters) :
    List OrderEvent :=
  match filters with
  | none => orders
  | some f => orders.filter (InMemoryOrderRepository.matchesFilters env f)

/-- The comparator value for one sort field (`comparison` in `applySorting`). -/
def InMemoryOrderRepository.sortComparison (env : DateEnv) (f : SortField)
    (a b : OrderEvent) : ℚ :=
  match f with
  | .processedAt => jsTime env a.processedAt - jsTime env b.processedAt
  | .transactionTime => jsTime env a.transactionTime - jsTime env b.transactionTime
  | .grossAmount => a.grossAmount - b.grossAmount
  | .sequenceNumber => (a.sequenceNumber : ℚ) - (b.sequenceNumber : ℚ)

/-- Insert an element into a run that is already sorted for `le`, after every
element it ties with; inserting the elements of a list left to right with
this gives the stable sort. -/
def jsSortInsert {α : Type} (le : α → α → Bool) (x : α) : List α → List α
  | [] => [x]
  | y :: ys => if le y x then y :: jsSortInsert le x ys else x :: y :: ys

/-- Stable sort with respect to a boolean comparator-derived order, the
model of `Array.prototype.sort` (which is specified stable); `le a b` means
the comparator is non-positive on `(a, b)`. -/
def jsStableSort {α : Type} (le : α → α → Bool) (xs : List α) : List α :=
  xs.foldl (fun acc x => jsSortInsert le x acc) []

/-- Source `applySorting`: stable sort under the source's comparator; without
options, newest `processedAt` first. -/
def InMemoryOrderRepository.applySorting (env : DateEnv)
    (orders : List OrderEvent) (sort : Option SortOptions) : List OrderEvent :=
  match sort with
  | none =>
    jsStableSort (fun a b =>
      decide (jsTime env b.processedAt - jsTime env a.processedAt ≤ 0)) orders
  | some s =>
    let direction : ℚ := if s.direction = .asc then 1 else -1
    jsStableSort (fun a b =>
      decide (InMemoryOrderRepository.sortComparison env s.field a b * direction ≤ 0)) orders

/-- Source `Array.prototype.slice(start, stop)` index clamping for integer
arguments. -/
def jsSliceIndex (len : ℕ) (i : ℤ) : ℕ :=
  if i < 0 then (max ((len : ℤ) + i) 0).toNat else min i.toNat len

/-- Source `Array.prototype.slice(start, stop)` for integer arguments. -/
def jsSlice {α : Type} (xs : List α) (start stop : ℤ) : List α :=
  let s := jsSliceIndex xs.length start
  let e := jsSliceIndex xs.length stop
  List.take (e - s) (List.drop s xs)

/-- Source `findMany`: filter, then sort, then paginate.  `totalPages` is
`Math.ceil(total / pageSize)` (a zero `pageSize` gives `Infinity` in the
source, which has no integer counterpart; all uses have `pageSize ≥ 1`). -/
def InMemoryOrderRepository.findMany (env : DateEnv)
    (repo : InMemoryOrderRepository) (filters : Option OrderQueryFilters)
    (pagination : Option PaginationOptions) (sort : Option SortOptions) :
    PaginatedResult :=
  let results := JsMap.values repo.orders
  let results := InMemoryOrderRepository.applyFilters env results filters
  let results := InMemoryOrderRepository.applySorting env results sort
  let total := results.length
  let page : ℤ := match pagination with
    | some p => p.page
    | none => 1
  let pageSize : ℤ := match pagination with
    | some p => p.pageSize
    | none => 20
  let totalPages : ℤ := ⌈(total : ℚ) / (pageSize : ℚ)⌉
  let startIndex : ℤ := (page - 1) * pageSize
  let data := jsSlice results startIndex (startIndex + pageSize)
  { data := data, total := total, page := page, pageSize := pageSize,
    totalPages := totalPages, hasMore := decide (page < totalPages) }

/-- The numeric value of a run of decimal digits. -/
def digitsVal (ds : List Char) : ℕ :=
  ds.foldl (fun acc c => acc * 10 + (c.toNat - '0'.toNat)) 0

/-- Source `parseInt(s, 10)`: skip leading whitespace, read an optional sign and the
longest run of decimal digits; no digits means `NaN` (`none`). -/
def jsParseInt (s : String) : Option ℤ :=
  let cs := List.dropWhile Char.isWhitespace s.toList
  let signAndRest : ℤ × List Char :=
    match cs with
    | '-' :: rest => (-1, rest)
    | '+' :: rest => (1, rest)
    | _ => (1, cs)
  let ds := List.takeWhile Char.isDigit signAndRest.2
  if ds.isEmpty then none else some (signAndRest.1 * (digitsVal ds : ℤ))

/-- Source `x || d` on a parsed number: `NaN` and `0` are falsy and give the
default. -/
def jsOrDefault (v : Option ℤ) (d : ℤ) : ℤ :=
  match v with
  | none => d
  | some n => if n = 0 then d else n

/-- The pagination lines of `parseQueryParams`:
`page = parseInt(query.page, 10) || 1` and
`pageSize = Math.min(parseInt(query.pageSize, 10) || 20, 100)`; an absent
query parameter parses to `NaN`. -/
def parseQueryParamsPagination (pageRaw pageSizeRaw : Option String) :
    PaginationOptions :=
  { page := jsOrDefault (pageRaw.bind jsParseInt) 1
    pageSize := min (jsOrDefault (pageSizeRaw.bind jsParseInt) 20) 100 }

/-- One operation of the order-repository write interface. -/
inductive RepoOp where
  | save (order : OrderEvent)
  | saveBatch (orders : List OrderEvent)
  | clear
deriving DecidableEq

/-- Apply one operation to a repository state. -/
def RepoOp.apply (repo : InMemoryOrderRepository) : RepoOp → InMemoryOrderRepository
  | .save o => InMemoryOrderRepository.save repo o
  | .saveBatch os => InMemoryOrderRepository.saveBatch repo os
  | .clear => InMemoryOrderRepository.clear repo

/-- Run an operation sequence from the freshly constructed repository. -/
def runOps (ops : List RepoOp) : InMemoryOrderRepository :=
  ops.foldl RepoOp.apply InMemoryOrderRepository.empty

/-- Flatten an operation into its elementary steps: `none` is a clear, `some
o` a single save. -/
def RepoOp.flatten : RepoOp → List (Option OrderEvent)
  | .save o => [some o]
  | .saveBatch os => os.map some
  | .clear => [none]

/-- The elementary steps of an operation sequence. -/
def flatOps (ops : List RepoOp) : List (Option OrderEvent) :=
  ops.flatMap RepoOp.flatten

/-- Apply one elementary step. -/
def applyFlat (repo : InMemoryOrderRepository) : Option OrderEvent → InMemoryOrderRepository
  | some o => InMemoryOrderRepository.save repo o
  | none => InMemoryOrderRepository.clear repo

/-- Run elementary steps from the freshly constructed repository. -/
def runFlat (fs : List (Option OrderEvent)) : InMemoryOrderRepository :=
  fs.foldl applyFlat InMemoryOrderRepository.empty

/-- Specification of the primary map after a step sequence: the most recently
saved order with the given internal id, unless a clear intervened. -/
def specOrders (fs : List (Option OrderEvent)) (id : String) : Option OrderEvent :=
  fs.foldl
    (fun acc f =>
      match f with
      | none => none
      | some o => if o.id = id then some o else acc)
    none

/-- Specification of the external-id index after a step sequence: the most
recently saved order with the given composite external key, unless a clear
intervened. -/
def specIndex (fs : List (Option OrderEvent)) (key : String) : Option OrderEvent :=
  fs.foldl
    (fun acc f =>
      match f with
      | none => none
      | some o =>
        if InMemoryOrderRepository.getExternalKey o.externalOrderId o.partnerId = key
        then some o else acc)
    none

/-- The orders saved by an operation sequence, in order. -/
def savedOrders (ops : List RepoOp) : List OrderEvent :=
  ops.flatMap (fun op =>
    match op with
    | .save o => [o]
    | .saveBatch os => os
    | .clear => [])

/-- The most recently saved order with the given `(externalOrderId,
partnerId)` key, with saves before the latest clear forgotten. -/
def lastSavedWithKey (ops : List RepoOp) (externalOrderId : String)
    (partnerId : PartnerId) : Option OrderEvent :=
  specIndex (flatOps ops)
    (InMemoryOrderRepository.getExternalKey externalOrderId partnerId)

/-- Concrete date oracles for evaluation: the clock reads the epoch
milliseconds of 2024-01-15T10:30:00Z and exactly that ISO string parses. -/
def fixtureEnv : DateEnv :=
  { now := 1705315800000
    parse := fun s => if s = "2024-01-15T10:30:00.000Z" then some 1705315800000 else none
    msToISO := fun _ => "2024-01-15T10:30:00.000Z" }

/-- Concrete ambient identifiers for evaluation. -/
def fixtureAmbient : Ambient :=
  { now := 1705315800000, eventId := "uuid-event", errorId := "uuid-error",
    assignId := "uuid-assign" }

/-- The freshly wired application state. -/
def fixtureSystem : SystemState :=
  { sequenceManager := InMemorySequenceManager.initial, seqCalls := 0,
    orderStream := ⟨[], []⟩, orderRepository := InMemoryOrderRepository.empty,
    errorRepository := [] }

/-- A Partner A payload that passes validation. -/
def goodPayloadA : Json := .obj
  [ ("orderId", .str "ORD-1"), ("skuId", .str "SKU-1"), ("customerId", .str "C1"),
    ("quantity", .num 5), ("unitPrice", .num 20), ("taxRate", .num (1/10)),
    ("transactionTimeMs", .num 1705315800000) ]

/-- A Partner A payload whose only defect is the absent `orderId` key. -/
def badPayloadA : Json := .obj
  [ ("skuId", .str "SKU-1"), ("customerId", .str "C1"),
    ("quantity", .num 5), ("unitPrice", .num 20), ("taxRate", .num (1/10)),
    ("transactionTimeMs", .num 1705315800000) ]

/-- A Partner A payload with an absent `orderId` key and a wrongly-typed
`quantity` value. -/
def mixedBadPayloadA : Json := .obj
  [ ("skuId", .str "SKU-1"), ("customerId", .str "C1"),
    ("quantity", .str "five"), ("unitPrice", .num 20), ("taxRate", .num (1/10)),
    ("transactionTimeMs", .num 1705315800000) ]

/-- A Partner A payload with two absent required keys. -/
def doubleMissingPayloadA : Json := .obj
  [ ("customerId", .str "C1"),
    ("quantity", .num 5), ("unitPrice", .num 20), ("taxRate", .num (1/10)),
    ("transactionTimeMs", .num 1705315800000) ]

/-- A Partner A payload with two invalid field values (wrongly-typed
`quantity`, negative `unitPrice`). -/
def doubleBadValuePayloadA : Json := .obj
  [ ("orderId", .str "ORD-1"), ("skuId", .str "SKU-1"), ("customerId", .str "C1"),
    ("quantity", .str "five"), ("unitPrice", .num (-2)), ("taxRate", .num (1/10)),
    ("transactionTimeMs", .num 1705315800000) ]

/-- A Partner A payload whose string ids carry surrounding whitespace. -/
def whitespacePayloadA : Json := .obj
  [ ("orderId", .str " ORD-1 "), ("skuId", .str "SKU-1"), ("customerId", .str "C1"),
    ("quantity", .num 5), ("unitPrice", .num 20), ("taxRate", .num (1/10)),
    ("transactionTimeMs", .num 1705315800000) ]

/-- A Partner B payload that passes validation. -/
def goodPayloadB : Json := .obj
  [ ("transactionId", .str "TXN-1"), ("itemCode", .str "ITM-1"), ("clientId", .str "C2"),
    ("qty", .num 3), ("price", .num 20), ("tax", .num 15),
    ("purchaseTime", .str "2024-01-15T10:30:00.000Z") ]

/-- A Partner B payload whose only defect is the absent `transactionId` key. -/
def badPayloadB : Json := .obj
  [ ("itemCode", .str "ITM-1"), ("clientId", .str "C2"),
    ("qty", .num 3), ("price", .num 20), ("tax", .num 15),
    ("purchaseTime", .str "2024-01-15T10:30:00.000Z") ]

/-- A Partner B payload with an absent `transactionId` key and a
wrongly-typed `qty` value. -/
def mixedBadPayloadB : Json := .obj
  [ ("itemCode", .str "ITM-1"), ("clientId", .str "C2"),
    ("qty", .str "three"), ("price", .num 20), ("tax", .num 15),
    ("purchaseTime", .str "2024-01-15T10:30:00.000Z") ]

/-- Concrete stored orders for repository evaluation. -/
def fixtureOrder1 : OrderEvent :=
  { id := "id-1", externalOrderId := "ORD-1", partnerId := .PARTNER_A,
    sequenceNumber := 1, productId := "P1", customerId := "C1", quantity := 1,
    unitPrice := 10, taxRate := 0, grossAmount := 10, taxAmount := 0,
    netAmount := 10, transactionTime := "2024-01-15T10:30:00.000Z",
    processedAt := "2024-01-15T10:30:00.000Z" }

/-- Second stored order. -/
def fixtureOrder2 : OrderEvent :=
  { fixtureOrder1 with
      id := "id-2"
      externalOrderId := "ORD-2"
      sequenceNumber := 2
      grossAmount := 20 }

/-- Third stored order. -/
def fixtureOrder3 : OrderEvent :=
  { fixtureOrder1 with
      id := "id-3"
      externalOrderId := "ORD-3"
      sequenceNumber := 3
      grossAmount := 30 }

/-- A later save carrying the same `(partnerId, externalOrderId)` key as
`fixtureOrder1` under a fresh internal id. -/
def fixtureOrder1v2 : OrderEvent :=
  { fixtureOrder1 with
      id := "id-4"
      quantity := 2
      grossAmount := 40 }

/-- An order whose internal id is the empty string. -/
def emptyIdOrder : OrderEvent :=
  { fixtureOrder1 with id := "" }

/-- A repository with three saved orders. -/
def fixtureRepo : InMemoryOrderRepository :=
  InMemoryOrderRepository.save
    (InMemoryOrderRepository.save
      (InMemoryOrderRepository.save InMemoryOrderRepository.empty fixtureOrder1)
      fixtureOrder2)
    fixtureOrder3

/-- A write history containing a clear, a batch, and a duplicate external
key. -/
def fixtureOps : List RepoOp :=
  [ .save fixtureOrder3, .clear, .save fixtureOrder1,
    .saveBatch [fixtureOrder1v2, fixtureOrder2] ]

/-- Field list of a Partner A payload with two absent required keys. -/
def doubleMissingFieldsA : List (String × Json) :=
  [ ("customerId", .str "C1"),
    ("quantity", .num 5), ("unitPrice", .num 20), ("taxRate", .num (1/10)),
    ("transactionTimeMs", .num 1705315800000) ]

/-- Field list of a Partner A payload with two invalid present values. -/
def doubleBadValueFieldsA : List (String × Json) :=
  [ ("orderId", .str "ORD-1"), ("skuId", .str "SKU-1"), ("customerId", .str "C1"),
    ("quantity", .str "five"), ("unitPrice", .num (-2)), ("taxRate", .num (1/10)),
    ("transactionTimeMs", .num 1705315800000) ]

/-- Field list of a Partner B payload with two absent required keys. -/
def doubleMissingFieldsB : List (String × Json) :=
  [ ("clientId", .str "C2"),
    ("qty", .num 3), ("price", .num 20), ("tax", .num 15),
    ("purchaseTime", .str "2024-01-15T10:30:00.000Z") ]

/-- Field list of a Partner B payload with two invalid present values. -/
def doubleBadValueFieldsB : List (String × Json) :=
  [ ("transactionId", .str "TXN-1"), ("itemCode", .str "ITM-1"), ("clientId", .str "C2"),
    ("qty", .str "three"), ("price", .num (-2)), ("tax", .num 15),
    ("purchaseTime", .str "2024-01-15T10:30:00.000Z") ]

/-- Field list of `whitespacePayloadA`. -/
def whitespaceFieldsA : List (String × Json) :=
  [ ("orderId", .str " ORD-1 "), ("skuId", .str "SKU-1"), ("customerId", .str "C1"),
    ("quantity", .num 5), ("unitPrice", .num 20), ("taxRate", .num (1/10)),
    ("transactionTimeMs", .num 1705315800000) ]

/-- The typed value of `whitespaceFieldsA`: the padded string is carried
unchanged. -/
def whitespaceInputA : PartnerAInput :=
  { orderId := " ORD-1 ", skuId := "SKU-1", customerId := "C1", quantity := 5,
    unitPrice := 20, taxRate := 1/10, transactionTimeMs := 1705315800000 }

/-- Field list of a Partner B payload with padded strings. -/
def whitespaceFieldsB : List (String × Json) :=
  [ ("transactionId", .str " TXN-1 "), ("itemCode", .str "ITM-1"), ("clientId", .str "C2"),
    ("qty", .num 3), ("price", .num 20), ("tax", .num 15),
    ("purchaseTime", .str "2024-01-15T10:30:00.000Z") ]

/-- The typed value of `whitespaceFieldsB`. -/
def whitespaceInputB : PartnerBInput :=
  { transactionId := " TXN-1 ", itemCode := "ITM-1", clientId := "C2", qty := 3,
    price := 20, tax := 15, purchaseTime := "2024-01-15T10:30:00.000Z" }

/-- Supporting C2 counterexample data: a raw Partner A payload with
`unitPrice = 0.1875` and `taxRate = 0.5` (both exact in binary64). -/
def c2RawA : Json := .obj
  [ ("orderId", .str "ORD-1"), ("skuId", .str "SKU-1"), ("customerId", .str "C1"),
    ("quantity", .num 1), ("unitPrice", .num (3/16)), ("taxRate", .num (1/2)),
    ("transactionTimeMs", .num 1705315800000) ]

/-- The typed value of `c2RawA`. -/
def c2InputA : PartnerAInput :=
  { orderId := "ORD-1", skuId := "SKU-1", customerId := "C1", quantity := 1,
    unitPrice := 3/16, taxRate := 1/2, transactionTimeMs := 1705315800000 }

/-- The canonical event built from `c2InputA`. -/
def c2Event : OrderEvent :=
  OrderTransformer.fromPartnerA fixtureEnv "id-1" "2024-01-15T10:30:00.000Z" c2InputA 1

/-- C3: starting from the initial state, `k` calls to `getNextSequence(p)`
return exactly the list (hence multiset) `1, 2, …, k`; every call returns
`getCurrentSequence(p) + 1` and stores it as the new current value; the
initial current value is 0 (so the first issued number is 1); and
`getCurrentSequence` never mutates the state. -/
theorem claim_C3_sequence_numbers :
    (∀ (p : PartnerId) (k : ℕ),
        (InMemorySequenceManager.issue InMemorySequenceManager.initial p k).1 =
          List.range' 1 k ∧
        ((InMemorySequenceManager.issue InMemorySequenceManager.initial p k).1 : Multiset ℕ) =
          (List.range' 1 k : Multiset ℕ)) ∧
    (∀ (m : InMemorySequenceManager) (p : PartnerId),
        (m.getNextSequence p).1 = (m.getCurrentSequence p).1 + 1 ∧
        JsMap.get ((m.getNextSequence p).2).sequences p =
          some ((m.getCurrentSequence p).1 + 1) ∧
        (((m.getNextSequence p).2).getCurrentSequence p).1 = (m.getNextSequence p).1) ∧
    (∀ (m : InMemorySequenceManager) (p : PartnerId),
        (m.getCurrentSequence p).2 = m) ∧
    (∀ p : PartnerId, (InMemorySequenceManager.initial.getCurrentSequence p).1 = 0) := by
  refine ⟨?_, ?_, ?_, ?_⟩
  · intro p k
    have h := InMemorySequenceManager.issue_eq p 0 k InMemorySequenceManager.initial rfl
    refine ⟨by simpa using h.1, ?_⟩
    have h1 : (InMemorySequenceManager.issue InMemorySequenceManager.initial p k).1 =
        List.range' 1 k := by simpa using h.1
    rw [h1]
  · intro m p
    refine ⟨rfl, ?_, ?_⟩
    · simp [InMemorySequenceManager.getNextSequence,
        InMemorySequenceManager.getCurrentSequence, JsMap.get_set_self]
    · simp [InMemorySequenceManager.getNextSequence,
        InMemorySequenceManager.getCurrentSequence, JsMap.get_set_self]
  · intro m p; rfl
  · intro p; rfl

/-- C8: the canonical tax rate is the Partner B percentage divided by 100 and
the Partner A decimal unchanged, both at the `CreateOrderEventInput` level and
through the full transformation to an `OrderEvent`; in particular `tax = 10`
yields `taxRate = 0.1`. -/
theorem claim_C8_tax_rate_normalization :
    (∀ (env : DateEnv) (input : PartnerBInput),
        (OrderTransformer.transformPartnerB env input).taxRate = input.tax / 100) ∧
    (∀ (env : DateEnv) (input : PartnerAInput),
        (OrderTransformer.transformPartnerA env input).taxRate = input.taxRate) ∧
    (∀ (env : DateEnv) (uuid processedAt : String) (input : PartnerBInput) (n : ℕ),
        (OrderTransformer.fromPartnerB env uuid processedAt input n).taxRate =
          input.tax / 100) ∧
    (∀ (env : DateEnv) (uuid processedAt : String) (input : PartnerAInput) (n : ℕ),
        (OrderTransformer.fromPartnerA env uuid processedAt input n).taxRate =
          input.taxRate) ∧
    (∀ env : DateEnv,
        (OrderTransformer.transformPartnerB env
          { transactionId := "TXN-1", itemCode := "ITM-1", clientId := "C2",
            qty := 3, price := 20, tax := 10,
            purchaseTime := "2024-01-15T10:30:00.000Z" }).taxRate = 1/10) := by
  refine ⟨fun env input => rfl, fun env input => rfl,
    fun env uuid pAt input n => rfl, fun env uuid pAt input n => rfl, fun env => ?_⟩
  show (10 : ℚ) / 100 = 1/10
  norm_num

/-- C2 counterexample: the raw payload `c2RawA` is accepted (so `c2Event` is
an accepted order), its stored `taxAmount` is 0.09, yet rounding the product
of the *stored* `grossAmount` (0.19) with the tax rate gives 0.10: the claimed
equation `taxAmount = round(grossAmount * taxRate, 2)` over the rounded stored
values is false. -/
theorem claim_C2_counterexample :
    PartnerAValidator.validate fixtureEnv.now c2RawA = .ok c2InputA ∧
    c2Event.grossAmount = 19/100 ∧
    c2Event.taxAmount = 9/100 ∧
    OrderTransformer.roundToTwoDecimals (c2Event.grossAmount * c2Event.taxRate) = 1/10 ∧
    c2Event.taxAmount ≠
      OrderTransformer.roundToTwoDecimals (c2Event.grossAmount * c2Event.taxRate) := by
  decide

/-- C2 (amended): for every order built by `buildOrderEvent`, the stored
amounts are the two-decimal half-up roundings of the *unrounded*
intermediates: `grossAmount = round(quantity * unitPrice, 2)`,
`taxAmount = round((quantity * unitPrice) * taxRate, 2)`, and
`netAmount = round(quantity * unitPrice + quantity * unitPrice * taxRate, 2)`;
the tax and net equations use the unrounded gross and tax, not the rounded
stored values. -/
theorem claim_C2_amount_rounding (uuid processedAt : String)
    (input : CreateOrderEventInput) (n : ℕ) :
    (OrderTransformer.buildOrderEvent uuid processedAt input n).grossAmount =
      OrderTransformer.roundToTwoDecimals (input.quantity * input.unitPrice) ∧
    (OrderTransformer.buildOrderEvent uuid processedAt input n).taxAmount =
      OrderTransformer.roundToTwoDecimals
        (input.quantity * input.unitPrice * input.taxRate) ∧
    (OrderTransformer.buildOrderEvent uuid processedAt input n).netAmount =
      OrderTransformer.roundToTwoDecimals
        (input.quantity * input.unitPrice +
          input.quantity * input.unitPrice * input.taxRate) :=
  ⟨rfl, rfl, rfl⟩

/-- C7 counterexample: `page=-3&pageSize=-5` parses to `{page: -3,
pageSize: -5}`: negative parsed values pass through, so the claimed bounds
`page ≥ 1` and `pageSize ≥ 1` are violated. -/
theorem claim_C7_counterexample :
    (parseQueryParamsPagination (some "-3") (some "-5")).page = -3 ∧
    (parseQueryParamsPagination (some "-3") (some "-5")).pageSize = -5 ∧
    ¬(1 ≤ (parseQueryParamsPagination (some "-3") (some "-5")).page) ∧
    ¬(1 ≤ (parseQueryParamsPagination (some "-3") (some "-5")).pageSize) := by
  decide

/-- C7 (amended): query parsing defaults to `{page: 1, pageSize: 20}` when
the parameters are absent, unparseable, or parse to 0, and clamps `pageSize`
from above to the hard ceiling 100; every other parsed value passes through
unchanged (`pageSize` only clamped from above), so non-negative parsed
values give `page ≥ 1` and `pageSize ≥ 1` but negative parsed values
violate the lower bounds. -/
theorem claim_C7_pagination_parsing :
    (∀ pageRaw pageSizeRaw : Option String,
        (parseQueryParamsPagination pageRaw pageSizeRaw).pageSize ≤ 100) ∧
    parseQueryParamsPagination none none = ⟨1, 20⟩ ∧
    (∀ pageRaw pageSizeRaw : Option String,
        pageRaw.bind jsParseInt = none →
        (parseQueryParamsPagination pageRaw pageSizeRaw).page = 1) ∧
    (∀ pageRaw pageSizeRaw : Option String,
        pageSizeRaw.bind jsParseInt = none →
        (parseQueryParamsPagination pageRaw pageSizeRaw).pageSize = 20) ∧
    (∀ pageRaw pageSizeRaw : Option String,
        pageRaw.bind jsParseInt = some 0 →
        (parseQueryParamsPagination pageRaw pageSizeRaw).page = 1) ∧
    (∀ pageRaw pageSizeRaw : Option String,
        pageSizeRaw.bind jsParseInt = some 0 →
        (parseQueryParamsPagination pageRaw pageSizeRaw).pageSize = 20) ∧
    (∀ (pageRaw pageSizeRaw : Option String) (n : ℤ),
        pageRaw.bind jsParseInt = some n → n ≠ 0 →
        (parseQueryParamsPagination pageRaw pageSizeRaw).page = n) ∧
    (∀ (pageRaw pageSizeRaw : Option String) (n : ℤ),
        pageSizeRaw.bind jsParseInt = some n → n ≠ 0 →
        (parseQueryParamsPagination pageRaw pageSizeRaw).pageSize = min n 100) ∧
    (∀ (pageRaw pageSizeRaw : Option String) (n : ℤ),
        pageSizeRaw.bind jsParseInt = some n → n < 0 →
        (parseQueryParamsPagination pageRaw pageSizeRaw).pageSize = n) ∧
    (∀ (pageRaw pageSizeRaw : Option String) (n : ℤ),
        pageRaw.bind jsParseInt = some n → 0 ≤ n →
        1 ≤ (parseQueryParamsPagination pageRaw pageSizeRaw).page) ∧
    (∀ (pageRaw pageSizeRaw : Option String) (n : ℤ),
        pageSizeRaw.bind jsParseInt = some n → 0 ≤ n →
        1 ≤ (parseQueryParamsPagination pageRaw pageSizeRaw).pageSize) := by
  refine ⟨?_, ?_, ?_, ?_, ?_, ?_, ?_, ?_, ?_, ?_, ?_⟩
  · intro pageRaw pageSizeRaw
    exact min_le_right _ _
  · rfl
  · intro pageRaw pageSizeRaw h
    simp [parseQueryParamsPagination, jsOrDefault, h]
  · intro pageRaw pageSizeRaw h
    simp [parseQueryParamsPagination, jsOrDefault, h]
  · intro pageRaw pageSizeRaw h
    simp [parseQueryParamsPagination, jsOrDefault, h]
  · intro pageRaw pageSizeRaw h
    simp [parseQueryParamsPagination, jsOrDefault, h]
  · intro pageRaw pageSizeRaw n h hn
    simp [parseQueryParamsPagination, jsOrDefault, h, hn]
  · intro pageRaw pageSizeRaw n h hn
    simp [parseQueryParamsPagination, jsOrDefault, h, hn]
  · intro pageRaw pageSizeRaw n h hn
    have hne : n ≠ 0 := by omega
    simp only [parseQueryParamsPagination, jsOrDefault, h, hne, if_false]
    omega
  · intro pageRaw pageSizeRaw n h hn
    simp only [parseQueryParamsPagination, jsOrDefault, h]
    split <;> omega
  · intro pageRaw pageSizeRaw n h hn
    simp only [parseQueryParamsPagination, jsOrDefault, h]
    split <;> omega

/-- C7 witness: concrete instances discharging the hypotheses of the amended
pagination theorem — the parse-to-0 defaults, the negative pass-through, the
unparseable default, and the non-negative lower bounds. -/
theorem claim_C7_pagination_parsing_witness :
    ((some "0" : Option String).bind jsParseInt = some 0 ∧
      (parseQueryParamsPagination (some "0") (some "0")).page = 1 ∧
      (parseQueryParamsPagination (some "0") (some "0")).pageSize = 20) ∧
    ((some "-3" : Option String).bind jsParseInt = some (-3) ∧ (-3 : ℤ) ≠ 0 ∧
      (parseQueryParamsPagination (some "-3") (some "-5")).page = -3) ∧
    ((some "-5" : Option String).bind jsParseInt = some (-5) ∧ (-5 : ℤ) < 0 ∧
      (parseQueryParamsPagination (some "-3") (some "-5")).pageSize = -5) ∧
    ((some "7" : Option String).bind jsParseInt = some 7 ∧ (7 : ℤ) ≠ 0 ∧
      (parseQueryParamsPagination (some "7") (some "200")).page = 7 ∧
      ((some "200" : Option String).bind jsParseInt = some 200 ∧
        (parseQueryParamsPagination (some "7") (some "200")).pageSize = min 200 100)) ∧
    ((some "7" : Option String).bind jsParseInt = some 7 ∧ (0:ℤ) ≤ 7 ∧
      1 ≤ (parseQueryParamsPagination (some "7") (some "200")).page) ∧
    ((some "200" : Option String).bind jsParseInt = some 200 ∧ (0:ℤ) ≤ 200 ∧
      1 ≤ (parseQueryParamsPagination (some "7") (some "200")).pageSize) ∧
    ((none : Option String).bind jsParseInt = none ∧
      (parseQueryParamsPagination none (some "200")).page = 1) := by
  refine ⟨⟨?_, ?_, ?_⟩, ⟨?_, ?_, ?_⟩, ⟨?_, ?_, ?_⟩, ⟨?_, ?_, ?_, ?_, ?_⟩,
    ⟨?_, ?_, ?_⟩, ⟨?_, ?_, ?_⟩, ⟨?_, ?_⟩⟩
  · decide
  · exact claim_C7_pagination_parsing.2.2.2.2.1 (some "0") (some "0") (by decide)
  · exact claim_C7_pagination_parsing.2.2.2.2.2.1 (some "0") (some "0") (by decide)
  · decide
  · decide
  · exact claim_C7_pagination_parsing.2.2.2.2.2.2.1 (some "-3") (some "-5") (-3)
      (by decide) (by decide)
  · decide
  · decide
  · exact claim_C7_pagination_parsing.2.2.2.2.2.2.2.2.1 (some "-3") (some "-5") (-5)
      (by decide) (by decide)
  · decide
  · decide
  · exact claim_C7_pagination_parsing.2.2.2.2.2.2.1 (some "7") (some "200") 7
      (by decide) (by decide)
  · decide
  · exact claim_C7_pagination_parsing.2.2.2.2.2.2.2.1 (some "7") (some "200") 200
      (by decide) (by decide)
  · decide
  · decide
  · exact claim_C7_pagination_parsing.2.2.2.2.2.2.2.2.2.1 (some "7") (some "200") 7
      (by decide) (by decide)
  · decide
  · decide
  · exact claim_C7_pagination_parsing.2.2.2.2.2.2.2.2.2.2 (some "7") (some "200") 200
      (by decide) (by decide)
  · rfl
  · exact claim_C7_pagination_parsing.2.2.1 none (some "200") rfl

/-- C1: for every raw payload processed by `processPartnerAOrder` or
`processPartnerBOrder` (with the `createContainer` subscribers attached): if
validation fails, the sequence-manager state is untouched and
`getNextSequence` is not called, no `VALID_ORDER` event is emitted, no
`OrderEvent` is saved, and exactly one `ERROR_ORDER` event is emitted; if
validation succeeds, `getNextSequence` is called exactly once and exactly one
`VALID_ORDER` event is emitted. -/
theorem claim_C1_processing_effects (env : DateEnv) (amb : Ambient)
    (sys : SystemState) (input : Json) :
    (((PartnerAValidator.validate env.now input).isValid = false →
        (FeedHandler.processPartnerAOrder env amb sys input).2.sequenceManager =
          sys.sequenceManager ∧
        (FeedHandler.processPartnerAOrder env amb sys input).2.seqCalls = sys.seqCalls ∧
        (FeedHandler.processPartnerAOrder env amb sys input).2.orderStream.validOrderHistory =
          sys.orderStream.validOrderHistory ∧
        (FeedHandler.processPartnerAOrder env amb sys input).2.orderRepository =
          sys.orderRepository ∧
        (FeedHandler.processPartnerAOrder env amb sys input).2.orderStream.errorOrderHistory.length =
          sys.orderStream.errorOrderHistory.length + 1) ∧
      ((PartnerAValidator.validate env.now input).isValid = true →
        (FeedHandler.processPartnerAOrder env amb sys input).2.seqCalls = sys.seqCalls + 1 ∧
        (FeedHandler.processPartnerAOrder env amb sys input).2.orderStream.validOrderHistory.length =
          sys.orderStream.validOrderHistory.length + 1 ∧
        (FeedHandler.processPartnerAOrder env amb sys input).2.orderStream.errorOrderHistory =
          sys.orderStream.errorOrderHistory ∧
        (FeedHandler.processPartnerAOrder env amb sys input).2.errorRepository =
          sys.errorRepository)) ∧
    (((PartnerBValidator.validate env.parse input).isValid = false →
        (FeedHandler.processPartnerBOrder env amb sys input).2.sequenceManager =
          sys.sequenceManager ∧
        (FeedHandler.processPartnerBOrder env amb sys input).2.seqCalls = sys.seqCalls ∧
        (FeedHandler.processPartnerBOrder env amb sys input).2.orderStream.validOrderHistory =
          sys.orderStream.validOrderHistory ∧
        (FeedHandler.processPartnerBOrder env amb sys input).2.orderRepository =
          sys.orderRepository ∧
        (FeedHandler.processPartnerBOrder env amb sys input).2.orderStream.errorOrderHistory.length =
          sys.orderStream.errorOrderHistory.length + 1) ∧
      ((PartnerBValidator.validate env.parse input).isValid = true →
        (FeedHandler.processPartnerBOrder env amb sys input).2.seqCalls = sys.seqCalls + 1 ∧
        (FeedHandler.processPartnerBOrder env amb sys input).2.orderStream.validOrderHistory.length =
          sys.orderStream.validOrderHistory.length + 1 ∧
        (FeedHandler.processPartnerBOrder env amb sys input).2.orderStream.errorOrderHistory =
          sys.orderStream.errorOrderHistory ∧
        (FeedHandler.processPartnerBOrder env amb sys input).2.errorRepository =
          sys.errorRepository)) := by
  constructor
  · cases h : PartnerAValidator.validate env.now input with
    | fail errors =>
      refine ⟨fun _ => ?_, fun hv => ?_⟩
      · simp [FeedHandler.processPartnerAOrder, h]
      · simp [ValidationResult.isValid] at hv
    | ok d =>
      refine ⟨fun hv => ?_, fun _ => ?_⟩
      · simp [ValidationResult.isValid] at hv
      · simp [FeedHandler.processPartnerAOrder, h]
  · cases h : PartnerBValidator.validate env.parse input with
    | fail errors =>
      refine ⟨fun _ => ?_, fun hv => ?_⟩
      · simp [FeedHandler.processPartnerBOrder, h]
      · simp [ValidationResult.isValid] at hv
    | ok d =>
      refine ⟨fun hv => ?_, fun _ => ?_⟩
      · simp [ValidationResult.isValid] at hv
      · simp [FeedHandler.processPartnerBOrder, h]

/-- C1 witness: the effects at one rejected and one accepted concrete payload
for each partner, from the freshly wired system. -/
theorem claim_C1_processing_effects_witness :
    ((PartnerAValidator.validate fixtureEnv.now badPayloadA).isValid = false ∧
      (FeedHandler.processPartnerAOrder fixtureEnv fixtureAmbient fixtureSystem
          badPayloadA).2.sequenceManager = fixtureSystem.sequenceManager ∧
      (FeedHandler.processPartnerAOrder fixtureEnv fixtureAmbient fixtureSystem
          badPayloadA).2.seqCalls = fixtureSystem.seqCalls ∧
      (FeedHandler.processPartnerAOrder fixtureEnv fixtureAmbient fixtureSystem
          badPayloadA).2.orderStream.validOrderHistory =
        fixtureSystem.orderStream.validOrderHistory ∧
      (FeedHandler.processPartnerAOrder fixtureEnv fixtureAmbient fixtureSystem
          badPayloadA).2.orderRepository = fixtureSystem.orderRepository ∧
      (FeedHandler.processPartnerAOrder fixtureEnv fixtureAmbient fixtureSystem
          badPayloadA).2.orderStream.errorOrderHistory.length =
        fixtureSystem.orderStream.errorOrderHistory.length + 1) ∧
    ((PartnerAValidator.validate fixtureEnv.now goodPayloadA).isValid = true ∧
      (FeedHandler.processPartnerAOrder fixtureEnv fixtureAmbient fixtureSystem
          goodPayloadA).2.seqCalls = fixtureSystem.seqCalls + 1 ∧
      (FeedHandler.processPartnerAOrder fixtureEnv fixtureAmbient fixtureSystem
          goodPayloadA).2.orderStream.validOrderHistory.length =
        fixtureSystem.orderStream.validOrderHistory.length + 1 ∧
      (FeedHandler.processPartnerAOrder fixtureEnv fixtureAmbient fixtureSystem
          goodPayloadA).2.orderStream.errorOrderHistory =
        fixtureSystem.orderStream.errorOrderHistory ∧
      (FeedHandler.processPartnerAOrder fixtureEnv fixtureAmbient fixtureSystem
          goodPayloadA).2.errorRepository = fixtureSystem.errorRepository) ∧
    ((PartnerBValidator.validate fixtureEnv.parse badPayloadB).isValid = false ∧
      (FeedHandler.processPartnerBOrder fixtureEnv fixtureAmbient fixtureSystem
          badPayloadB).2.sequenceManager = fixtureSystem.sequenceManager ∧
      (FeedHandler.processPartnerBOrder fixtureEnv fixtureAmbient fixtureSystem
          badPayloadB).2.orderStream.errorOrderHistory.length =
        fixtureSystem.orderStream.errorOrderHistory.length + 1) ∧
    ((PartnerBValidator.validate fixtureEnv.parse goodPayloadB).isValid = true ∧
      (FeedHandler.processPartnerBOrder fixtureEnv fixtureAmbient fixtureSystem
          goodPayloadB).2.seqCalls = fixtureSystem.seqCalls + 1 ∧
      (FeedHandler.processPartnerBOrder fixtureEnv fixtureAmbient fixtureSystem
          goodPayloadB).2.orderStream.validOrderHistory.length =
        fixtureSystem.orderStream.validOrderHistory.length + 1) := by
  have hA := claim_C1_processing_effects fixtureEnv fixtureAmbient fixtureSystem badPayloadA
  have hA2 := claim_C1_processing_effects fixtureEnv fixtureAmbient fixtureSystem goodPayloadA
  have hB := claim_C1_processing_effects fixtureEnv fixtureAmbient fixtureSystem badPayloadB
  have hB2 := claim_C1_processing_effects fixtureEnv fixtureAmbient fixtureSystem goodPayloadB
  refine ⟨⟨by decide, hA.1.1 (by decide)⟩, ⟨by decide, hA2.1.2 (by decide)⟩, ?_, ?_⟩
  · have h := hB.2.1 (by decide)
    exact ⟨by decide, h.1, h.2.2.2.2⟩
  · have h := hB2.2.2 (by decide)
    exact ⟨by decide, h.1, h.2.1⟩

/-- C4 counterexample: `badPayloadA` is rejected because the required
`orderId` key is absent (its single collected error has `expectedType =
required`), yet the persisted ErrorEvent carries `errorCode = INVALID_VALUE`
— not `MISSING_REQUIRED_FIELD` — and its single detail entry has the fixed
field `validation` rather than the offending field name. -/
theorem claim_C4_counterexample :
    (PartnerAValidator.validate fixtureEnv.now badPayloadA).errorList.map
        (fun e => (e.field, e.expectedType)) = [("orderId", some "required")] ∧
    (JsMap.get (FeedHandler.processPartnerAOrder fixtureEnv fixtureAmbient
        fixtureSystem badPayloadA).2.errorRepository "uuid-error").map
        (fun e => (e.errorCode, e.details.map (fun d => d.field))) =
      some (ErrorCode.INVALID_VALUE, ["validation"]) ∧
    ErrorCode.INVALID_VALUE ≠ ErrorCode.MISSING_REQUIRED_FIELD := by
  decide

/-- C4 (amended): every payload rejected by validation is persisted to the
error repository under the fresh error id with the fixed code
`INVALID_VALUE` (whatever the rejection trigger), the fixed message
`Validation failed`, and one detail entry per collected validation error,
each detail carrying the literal field `validation` and the collected error
object in its message slot. -/
theorem claim_C4_persisted_error (env : DateEnv) (amb : Ambient)
    (sys : SystemState) (input : Json) (hid : amb.errorId ≠ "") :
    ((PartnerAValidator.validate env.now input).isValid = false →
      JsMap.get (FeedHandler.processPartnerAOrder env amb sys input).2.errorRepository
          amb.errorId =
        some { id := amb.errorId
               partnerId := PartnerId.PARTNER_A
               externalOrderId :=
                 match input with
                 | .obj fs => Json.getD fs "orderId"
                 | _ => Json.undefJs
               errorCode := ErrorCode.INVALID_VALUE
               message := "Validation failed"
               details := (PartnerAValidator.validate env.now input).errorList.map
                 (fun e => { field := "validation", message := e })
               originalPayload := input
               timestamp := env.msToISO amb.now }) ∧
    ((PartnerBValidator.validate env.parse input).isValid = false →
      JsMap.get (FeedHandler.processPartnerBOrder env amb sys input).2.errorRepository
          amb.errorId =
        some { id := amb.errorId
               partnerId := PartnerId.PARTNER_B
               externalOrderId :=
                 match input with
                 | .obj fs => Json.getD fs "transactionId"
                 | _ => Json.undefJs
               errorCode := ErrorCode.INVALID_VALUE
               message := "Validation failed"
               details := (PartnerBValidator.validate env.parse input).errorList.map
                 (fun e => { field := "validation", message := e })
               originalPayload := input
               timestamp := env.msToISO amb.now }) := by
  constructor
  · intro hv
    cases h : PartnerAValidator.validate env.now input with
    | ok d => simp [ValidationResult.isValid, h] at hv
    | fail errors =>
      simp [FeedHandler.processPartnerAOrder, h, ErrorRepository.save,
        errorOrderSubscriberEvent, hid, JsMap.get_set_self, ValidationResult.errorList]
  · intro hv
    cases h : PartnerBValidator.validate env.parse input with
    | ok d => simp [ValidationResult.isValid, h] at hv
    | fail errors =>
      simp [FeedHandler.processPartnerBOrder, h, ErrorRepository.save,
        errorOrderSubscriberEvent, hid, JsMap.get_set_self, ValidationResult.errorList]

/-- C4 witness: the persisted error event for the concrete rejected payload
`badPayloadA`. -/
theorem claim_C4_persisted_error_witness :
    (fixtureAmbient.errorId ≠ "" ∧
      (PartnerAValidator.validate fixtureEnv.now badPayloadA).isValid = false) ∧
    JsMap.get (FeedHandler.processPartnerAOrder fixtureEnv fixtureAmbient
        fixtureSystem badPayloadA).2.errorRepository fixtureAmbient.errorId =
      some { id := fixtureAmbient.errorId
             partnerId := PartnerId.PARTNER_A
             externalOrderId :=
               match badPayloadA with
               | .obj fs => Json.getD fs "orderId"
               | _ => Json.undefJs
             errorCode := ErrorCode.INVALID_VALUE
             message := "Validation failed"
             details := (PartnerAValidator.validate fixtureEnv.now badPayloadA).errorList.map
               (fun e => { field := "validation", message := e })
             originalPayload := badPayloadA
             timestamp := fixtureEnv.msToISO fixtureAmbient.now } :=
  ⟨⟨by decide, by decide⟩,
   (claim_C4_persisted_error fixtureEnv fixtureAmbient fixtureSystem badPayloadA
      (by decide)).1 (by decide)⟩

/-- C5 counterexample: a payload with one missing required field and one
present field of the wrong type reports only the missing-field error: the
presence phase short-circuits the type phase, for both validators. -/
theorem claim_C5_counterexample :
    (PartnerAValidator.validate fixtureEnv.now mixedBadPayloadA).errorList.map
        (fun e => e.field) = ["orderId"] ∧
    (PartnerAValidator.validateQuantity (Json.str "five")).1 = false ∧
    (PartnerBValidator.validate fixtureEnv.parse mixedBadPayloadB).errorList.map
        (fun e => e.field) = ["transactionId"] ∧
    (PartnerBValidator.validateQuantity (Json.str "three")).1 = false := by
  decide

/-- C5 (amended): validation collects all errors within a phase.  When any
required key is absent or null, the returned error list is the concatenation
of the presence errors of all seven required fields (so several missing
fields are all reported together) and the type/value phase is skipped; when
every required key passes the presence check and some type/value check
fails, the returned list is the concatenation of the type/value errors of
all seven fields.  This holds for both partner validators. -/
theorem claim_C5_error_collection :
    (∀ (now : ℚ) (fields : List (String × Json)),
      ((BaseValidator.validateRequired fields "orderId").1 &&
        (BaseValidator.validateRequired fields "skuId").1 &&
        (BaseValidator.validateRequired fields "customerId").1 &&
        (BaseValidator.validateRequired fields "quantity").1 &&
        (BaseValidator.validateRequired fields "unitPrice").1 &&
        (BaseValidator.validateRequired fields "taxRate").1 &&
        (BaseValidator.validateRequired fields "transactionTimeMs").1) = false →
      PartnerAValidator.validate now (.obj fields) =
        .fail ((BaseValidator.validateRequired fields "orderId").2 ++
          (BaseValidator.validateRequired fields "skuId").2 ++
          (BaseValidator.validateRequired fields "customerId").2 ++
          (BaseValidator.validateRequired fields "quantity").2 ++
          (BaseValidator.validateRequired fields "unitPrice").2 ++
          (BaseValidator.validateRequired fields "taxRate").2 ++
          (BaseValidator.validateRequired fields "transactionTimeMs").2)) ∧
    (∀ (now : ℚ) (fields : List (String × Json)),
      ((BaseValidator.validateRequired fields "orderId").1 &&
        (BaseValidator.validateRequired fields "skuId").1 &&
        (BaseValidator.validateRequired fields "customerId").1 &&
        (BaseValidator.validateRequired fields "quantity").1 &&
        (BaseValidator.validateRequired fields "unitPrice").1 &&
        (BaseValidator.validateRequired fields "taxRate").1 &&
        (BaseValidator.validateRequired fields "transactionTimeMs").1) = true →
      ((BaseValidator.validateString (Json.getD fields "orderId") "orderId").1 &&
        (BaseValidator.validateString (Json.getD fields "skuId") "skuId").1 &&
        (BaseValidator.validateString (Json.getD fields "customerId") "customerId").1 &&
        (PartnerAValidator.validateQuantity (Json.getD fields "quantity")).1 &&
        (BaseValidator.validatePositiveNumber (Json.getD fields "unitPrice") "unitPrice").1 &&
        (BaseValidator.validateTaxRate (Json.getD fields "taxRate") "taxRate" false).1 &&
        (BaseValidator.validateTimestampMs now (Json.getD fields "transactionTimeMs") "transactionTimeMs").1) = false →
      PartnerAValidator.validate now (.obj fields) =
        .fail ((BaseValidator.validateString (Json.getD fields "orderId") "orderId").2 ++
          (BaseValidator.validateString (Json.getD fields "skuId") "skuId").2 ++
          (BaseValidator.validateString (Json.getD fields "customerId") "customerId").2 ++
          (PartnerAValidator.validateQuantity (Json.getD fields "quantity")).2 ++
          (BaseValidator.validatePositiveNumber (Json.getD fields "unitPrice") "unitPrice").2 ++
          (BaseValidator.validateTaxRate (Json.getD fields "taxRate") "taxRate" false).2 ++
          (BaseValidator.validateTimestampMs now (Json.getD fields "transactionTimeMs") "transactionTimeMs").2)) ∧
    (∀ (parse : String → Option ℚ) (fields : List (String × Json)),
      ((BaseValidator.validateRequired fields "transactionId").1 &&
        (BaseValidator.validateRequired fields "itemCode").1 &&
        (BaseValidator.validateRequired fields "clientId").1 &&
        (BaseValidator.validateRequired fields "qty").1 &&
        (BaseValidator.validateRequired fields "price").1 &&
        (BaseValidator.validateRequired fields "tax").1 &&
        (BaseValidator.validateRequired fields "purchaseTime").1) = false →
      PartnerBValidator.validate parse (.obj fields) =
        .fail ((BaseValidator.validateRequired fields "transactionId").2 ++
          (BaseValidator.validateRequired fields "itemCode").2 ++
          (BaseValidator.validateRequired fields "clientId").2 ++
          (BaseValidator.validateRequired fields "qty").2 ++
          (BaseValidator.validateRequired fields "price").2 ++
          (BaseValidator.validateRequired fields "tax").2 ++
          (BaseValidator.validateRequired fields "purchaseTime").2)) ∧
    (∀ (parse : String → Option ℚ) (fields : List (String × Json)),
      ((BaseValidator.validateRequired fields "transactionId").1 &&
        (BaseValidator.validateRequired fields "itemCode").1 &&
        (BaseValidator.validateRequired fields "clientId").1 &&
        (BaseValidator.validateRequired fields "qty").1 &&
        (BaseValidator.validateRequired fields "price").1 &&
        (BaseValidator.validateRequired fields "tax").1 &&
        (BaseValidator.validateRequired fields "purchaseTime").1) = true →
      ((BaseValidator.validateString (Json.getD fields "transactionId") "transactionId").1 &&
        (BaseValidator.validateString (Json.getD fields "itemCode") "itemCode").1 &&
        (BaseValidator.validateString (Json.getD fields "clientId") "clientId").1 &&
        (PartnerBValidator.validateQuantity (Json.getD fields "qty")).1 &&
        (BaseValidator.validatePositiveNumber (Json.getD fields "price") "price").1 &&
        (BaseValidator.validateTaxRate (Json.getD fields "tax") "tax" true).1 &&
        (BaseValidator.validateISO8601Timestamp parse (Json.getD fields "purchaseTime") "purchaseTime").1) = false →
      PartnerBValidator.validate parse (.obj fields) =
        .fail ((BaseValidator.validateString (Json.getD fields "transactionId") "transactionId").2 ++
          (BaseValidator.validateString (Json.getD fields "itemCode") "itemCode").2 ++
          (BaseValidator.validateString (Json.getD fields "clientId") "clientId").2 ++
          (PartnerBValidator.validateQuantity (Json.getD fields "qty")).2 ++
          (BaseValidator.validatePositiveNumber (Json.getD fields "price") "price").2 ++
          (BaseValidator.validateTaxRate (Json.getD fields "tax") "tax" true).2 ++
          (BaseValidator.validateISO8601Timestamp parse (Json.getD fields "purchaseTime") "purchaseTime").2)) := by
  refine ⟨?_, ?_, ?_, ?_⟩
  · intro now fields h
    simp [PartnerAValidator.validate, h]
  · intro now fields h1 h2
    simp [PartnerAValidator.validate, h1, h2]
  · intro parse fields h
    simp [PartnerBValidator.validate, h]
  · intro parse fields h1 h2
    simp [PartnerBValidator.validate, h1, h2]

/-- C5 witness: concrete instances of both phases of the amended
error-collection theorem, for both validators. -/
theorem claim_C5_error_collection_witness :
    (((BaseValidator.validateRequired doubleMissingFieldsA "orderId").1 &&
        (BaseValidator.validateRequired doubleMissingFieldsA "skuId").1 &&
        (BaseValidator.validateRequired doubleMissingFieldsA "customerId").1 &&
        (BaseValidator.validateRequired doubleMissingFieldsA "quantity").1 &&
        (BaseValidator.validateRequired doubleMissingFieldsA "unitPrice").1 &&
        (BaseValidator.validateRequired doubleMissingFieldsA "taxRate").1 &&
        (BaseValidator.validateRequired doubleMissingFieldsA "transactionTimeMs").1) = false ∧
      PartnerAValidator.validate 1705315800000 (.obj doubleMissingFieldsA) =
        .fail ((BaseValidator.validateRequired doubleMissingFieldsA "orderId").2 ++
          (BaseValidator.validateRequired doubleMissingFieldsA "skuId").2 ++
          (BaseValidator.validateRequired doubleMissingFieldsA "customerId").2 ++
          (BaseValidator.validateRequired doubleMissingFieldsA "quantity").2 ++
          (BaseValidator.validateRequired doubleMissingFieldsA "unitPrice").2 ++
          (BaseValidator.validateRequired doubleMissingFieldsA "taxRate").2 ++
          (BaseValidator.validateRequired doubleMissingFieldsA "transactionTimeMs").2) ∧
      (PartnerAValidator.validate 1705315800000 (.obj doubleMissingFieldsA)).errorList.map
        (fun e => e.field) = ["orderId", "skuId"]) ∧
    (((BaseValidator.validateString (Json.getD doubleBadValueFieldsA "orderId") "orderId").1 &&
        (BaseValidator.validateString (Json.getD doubleBadValueFieldsA "skuId") "skuId").1 &&
        (BaseValidator.validateString (Json.getD doubleBadValueFieldsA "customerId") "customerId").1 &&
        (PartnerAValidator.validateQuantity (Json.getD doubleBadValueFieldsA "quantity")).1 &&
        (BaseValidator.validatePositiveNumber (Json.getD doubleBadValueFieldsA "unitPrice") "unitPrice").1 &&
        (BaseValidator.validateTaxRate (Json.getD doubleBadValueFieldsA "taxRate") "taxRate" false).1 &&
        (BaseValidator.validateTimestampMs 1705315800000
          (Json.getD doubleBadValueFieldsA "transactionTimeMs") "transactionTimeMs").1) = false ∧
      PartnerAValidator.validate 1705315800000 (.obj doubleBadValueFieldsA) =
        .fail ((BaseValidator.validateString (Json.getD doubleBadValueFieldsA "orderId") "orderId").2 ++
          (BaseValidator.validateString (Json.getD doubleBadValueFieldsA "skuId") "skuId").2 ++
          (BaseValidator.validateString (Json.getD doubleBadValueFieldsA "customerId") "customerId").2 ++
          (PartnerAValidator.validateQuantity (Json.getD doubleBadValueFieldsA "quantity")).2 ++
          (BaseValidator.validatePositiveNumber (Json.getD doubleBadValueFieldsA "unitPrice") "unitPrice").2 ++
          (BaseValidator.validateTaxRate (Json.getD doubleBadValueFieldsA "taxRate") "taxRate" false).2 ++
          (BaseValidator.validateTimestampMs 1705315800000
            (Json.getD doubleBadValueFieldsA "transactionTimeMs") "transactionTimeMs").2) ∧
      (PartnerAValidator.validate 1705315800000 (.obj doubleBadValueFieldsA)).errorList.map
        (fun e => e.field) = ["quantity", "unitPrice"]) ∧
    (((BaseValidator.validateRequired doubleMissingFieldsB "transactionId").1 &&
        (BaseValidator.validateRequired doubleMissingFieldsB "itemCode").1 &&
        (BaseValidator.validateRequired doubleMissingFieldsB "clientId").1 &&
        (BaseValidator.validateRequired doubleMissingFieldsB "qty").1 &&
        (BaseValidator.validateRequired doubleMissingFieldsB "price").1 &&
        (BaseValidator.validateRequired doubleMissingFieldsB "tax").1 &&
        (BaseValidator.validateRequired doubleMissingFieldsB "purchaseTime").1) = false ∧
      (PartnerBValidator.validate fixtureEnv.parse (.obj doubleMissingFieldsB)).errorList.map
        (fun e => e.field) = ["transactionId", "itemCode"]) ∧
    (((BaseValidator.validateString (Json.getD doubleBadValueFieldsB "transactionId") "transactionId").1 &&
        (BaseValidator.validateString (Json.getD doubleBadValueFieldsB "itemCode") "itemCode").1 &&
        (BaseValidator.validateString (Json.getD doubleBadValueFieldsB "clientId") "clientId").1 &&
        (PartnerBValidator.validateQuantity (Json.getD doubleBadValueFieldsB "qty")).1 &&
        (BaseValidator.validatePositiveNumber (Json.getD doubleBadValueFieldsB "price") "price").1 &&
        (BaseValidator.validateTaxRate (Json.getD doubleBadValueFieldsB "tax") "tax" true).1 &&
        (BaseValidator.validateISO8601Timestamp fixtureEnv.parse
          (Json.getD doubleBadValueFieldsB "purchaseTime") "purchaseTime").1) = false ∧
      (PartnerBValidator.validate fixtureEnv.parse (.obj doubleBadValueFieldsB)).errorList.map
        (fun e => e.field) = ["qty", "price"]) := by
  refine ⟨⟨?_, ?_, ?_⟩, ⟨?_, ?_, ?_⟩, ⟨?_, ?_⟩, ⟨?_, ?_⟩⟩
  · decide
  · exact claim_C5_error_collection.1 1705315800000 doubleMissingFieldsA (by decide)
  · decide
  · decide
  · exact claim_C5_error_collection.2.1 1705315800000 doubleBadValueFieldsA
      (by decide) (by decide)
  · decide
  · decide
  · have h := claim_C5_error_collection.2.2.1 fixtureEnv.parse doubleMissingFieldsB (by decide)
    rw [h]
    decide
  · decide
  · have h := claim_C5_error_collection.2.2.2 fixtureEnv.parse doubleBadValueFieldsB
      (by decide) (by decide)
    rw [h]
    decide

/-- A value passing `validateString` is a string, and `asString` recovers it
exactly (no trimming is applied to the output). -/
theorem validateString_true_inv {v : Json} {f : String} {n : ℕ}
    (h : (BaseValidator.validateString v f n).1 = true) :
    v = .str v.asString := by
  cases v <;> simp_all [BaseValidator.validateString, Json.asString]

/-- A field passing `validateRequired` is present, and `getD` reads exactly
the stored value. -/
theorem validateRequired_true_inv {fields : List (String × Json)} {f : String}
    (h : (BaseValidator.validateRequired fields f).1 = true) :
    Json.lookup fields f = some (Json.getD fields f) := by
  unfold BaseValidator.validateRequired at h
  cases hl : Json.lookup fields f with
  | none => rw [hl] at h; simp at h
  | some v => simp [Json.getD, hl]

/-- C10: the string fields of a validated input are exactly the raw payload
strings — no trimming is applied to the output — and they are carried
unchanged into the canonical event's `externalOrderId`, `productId` and
`customerId`, for both partners. -/
theorem claim_C10_strings_unchanged :
    (∀ (now : ℚ) (fields : List (String × Json)) (d : PartnerAInput),
      PartnerAValidator.validate now (.obj fields) = .ok d →
      Json.lookup fields "orderId" = some (.str d.orderId) ∧
      Json.lookup fields "skuId" = some (.str d.skuId) ∧
      Json.lookup fields "customerId" = some (.str d.customerId) ∧
      ∀ (env : DateEnv) (uuid processedAt : String) (n : ℕ),
        (OrderTransformer.fromPartnerA env uuid processedAt d n).externalOrderId = d.orderId ∧
        (OrderTransformer.fromPartnerA env uuid processedAt d n).productId = d.skuId ∧
        (OrderTransformer.fromPartnerA env uuid processedAt d n).customerId = d.customerId) ∧
    (∀ (parse : String → Option ℚ) (fields : List (String × Json)) (d : PartnerBInput),
      PartnerBValidator.validate parse (.obj fields) = .ok d →
      Json.lookup fields "transactionId" = some (.str d.transactionId) ∧
      Json.lookup fields "itemCode" = some (.str d.itemCode) ∧
      Json.lookup fields "clientId" = some (.str d.clientId) ∧
      ∀ (env : DateEnv) (uuid processedAt : String) (n : ℕ),
        (OrderTransformer.fromPartnerB env uuid processedAt d n).externalOrderId = d.transactionId ∧
        (OrderTransformer.fromPartnerB env uuid processedAt d n).productId = d.itemCode ∧
        (OrderTransformer.fromPartnerB env uuid processedAt d n).customerId = d.clientId) := by
  constructor
  · intro now fields d hok
    simp only [PartnerAValidator.validate] at hok
    split at hok
    case isFalse => exact ValidationResult.noConfusion hok
    case isTrue hreq =>
      split at hok
      case isFalse => exact ValidationResult.noConfusion hok
      case isTrue hval =>
        simp only [Bool.and_eq_true] at hreq hval
        obtain ⟨⟨⟨⟨⟨⟨hr1, hr2⟩, hr3⟩, _⟩, _⟩, _⟩, _⟩ := hreq
        obtain ⟨⟨⟨⟨⟨⟨hv1, hv2⟩, hv3⟩, _⟩, _⟩, _⟩, _⟩ := hval
        have key :
            Json.lookup fields "orderId" =
              some (.str ((Json.getD fields "orderId").asString)) ∧
            Json.lookup fields "skuId" =
              some (.str ((Json.getD fields "skuId").asString)) ∧
            Json.lookup fields "customerId" =
              some (.str ((Json.getD fields "customerId").asString)) :=
          ⟨(validateRequired_true_inv hr1).trans
              (congrArg some (validateString_true_inv hv1)),
            (validateRequired_true_inv hr2).trans
              (congrArg some (validateString_true_inv hv2)),
            (validateRequired_true_inv hr3).trans
              (congrArg some (validateString_true_inv hv3))⟩
        split at hok
        · split at hok
          · injection hok with hd
            subst hd
            exact ⟨key.1, key.2.1, key.2.2, fun env uuid pAt n => ⟨rfl, rfl, rfl⟩⟩
          · exact ValidationResult.noConfusion hok
        · injection hok with hd
          subst hd
          exact ⟨key.1, key.2.1, key.2.2, fun env uuid pAt n => ⟨rfl, rfl, rfl⟩⟩
  · intro parse fields d hok
    simp only [PartnerBValidator.validate] at hok
    split at hok
    case isFalse => exact ValidationResult.noConfusion hok
    case isTrue hreq =>
      split at hok
      case isFalse => exact ValidationResult.noConfusion hok
      case isTrue hval =>
        simp only [Bool.and_eq_true] at hreq hval
        obtain ⟨⟨⟨⟨⟨⟨hr1, hr2⟩, hr3⟩, _⟩, _⟩, _⟩, _⟩ := hreq
        obtain ⟨⟨⟨⟨⟨⟨hv1, hv2⟩, hv3⟩, _⟩, _⟩, _⟩, _⟩ := hval
        have key :
            Json.lookup fields "transactionId" =
              some (.str ((Json.getD fields "transactionId").asString)) ∧
            Json.lookup fields "itemCode" =
              some (.str ((Json.getD fields "itemCode").asString)) ∧
            Json.lookup fields "clientId" =
              some (.str ((Json.getD fields "clientId").asString)) :=
          ⟨(validateRequired_true_inv hr1).trans
              (congrArg some (validateString_true_inv hv1)),
            (validateRequired_true_inv hr2).trans
              (congrArg some (validateString_true_inv hv2)),
            (validateRequired_true_inv hr3).trans
              (congrArg some (validateString_true_inv hv3))⟩
        split at hok
        · split at hok
          · injection hok with hd
            subst hd
            exact ⟨key.1, key.2.1, key.2.2, fun env uuid pAt n => ⟨rfl, rfl, rfl⟩⟩
          · exact ValidationResult.noConfusion hok
        · injection hok with hd
          subst hd
          exact ⟨key.1, key.2.1, key.2.2, fun env uuid pAt n => ⟨rfl, rfl, rfl⟩⟩

/-- C10 witness: whitespace-padded id strings pass validation and are carried
unchanged, for a concrete payload of each partner. -/
theorem claim_C10_strings_unchanged_witness :
    (PartnerAValidator.validate 1705315800000 (.obj whitespaceFieldsA) =
        .ok whitespaceInputA ∧
      Json.lookup whitespaceFieldsA "orderId" = some (.str whitespaceInputA.orderId) ∧
      whitespaceInputA.orderId = " ORD-1 " ∧
      (OrderTransformer.fromPartnerA fixtureEnv "uuid-event"
        "2024-01-15T10:30:00.000Z" whitespaceInputA 1).externalOrderId =
        whitespaceInputA.orderId) ∧
    (PartnerBValidator.validate fixtureEnv.parse (.obj whitespaceFieldsB) =
        .ok whitespaceInputB ∧
      Json.lookup whitespaceFieldsB "transactionId" =
        some (.str whitespaceInputB.transactionId) ∧
      whitespaceInputB.transactionId = " TXN-1 " ∧
      (OrderTransformer.fromPartnerB fixtureEnv "uuid-event"
        "2024-01-15T10:30:00.000Z" whitespaceInputB 1).externalOrderId =
        whitespaceInputB.transactionId) := by
  have hA := claim_C10_strings_unchanged.1 1705315800000 whitespaceFieldsA
    whitespaceInputA (by decide)
  have hB := claim_C10_strings_unchanged.2 fixtureEnv.parse whitespaceFieldsB
    whitespaceInputB (by decide)
  exact ⟨⟨by decide, hA.1, by decide,
          (hA.2.2.2 fixtureEnv "uuid-event" "2024-01-15T10:30:00.000Z" 1).1⟩,
        ⟨by decide, hB.1, by decide,
          (hB.2.2.2 fixtureEnv "uuid-event" "2024-01-15T10:30:00.000Z" 1).1⟩⟩

/-- Inserting preserves length. -/
theorem length_jsSortInsert {α : Type} (le : α → α → Bool) (x : α) (ys : List α) :
    (jsSortInsert le x ys).length = ys.length + 1 := by
  induction ys with
  | nil => rfl
  | cons y ys ih =>
    simp only [jsSortInsert]
    split <;> simp [ih]

/-- Stable sorting preserves length. -/
theorem length_jsStableSort {α : Type} (le : α → α → Bool) (xs : List α) :
    (jsStableSort le xs).length = xs.length := by
  suffices h : ∀ acc : List α,
      (xs.foldl (fun acc x => jsSortInsert le x acc) acc).length =
        acc.length + xs.length by
    simpa [jsStableSort] using h []
  induction xs with
  | nil => intro acc; simp
  | cons x xs ih =>
    intro acc
    simp only [List.foldl_cons, List.length_cons]
    rw [ih, length_jsSortInsert]
    omega

/-- Source `applySorting` preserves length. -/
theorem length_applySorting (env : DateEnv) (orders : List OrderEvent)
    (sort : Option SortOptions) :
    (InMemoryOrderRepository.applySorting env orders sort).length = orders.length := by
  cases sort <;> simp [InMemoryOrderRepository.applySorting, length_jsStableSort]

/-- Source `slice(start, start + size)` on non-negative integer arguments is
drop-then-take. -/
theorem jsSlice_nonneg {α : Type} (xs : List α) (start size : ℤ)
    (hs : 0 ≤ start) (hz : 0 ≤ size) :
    jsSlice xs start (start + size) = (xs.drop start.toNat).take size.toNat := by
  unfold jsSlice jsSliceIndex
  have h1 : ¬(start < 0) := by omega
  have h2 : ¬(start + size < 0) := by omega
  simp only [h1, h2, if_false]
  rw [Int.toNat_add hs hz]
  by_cases hcase : start.toNat ≤ xs.length
  · have hmin : min start.toNat xs.length = start.toNat := by omega
    rw [hmin]
    rw [List.take_eq_take]
    rw [List.length_drop]
    omega
  · have hmin : min start.toNat xs.length = xs.length := by omega
    have hmin2 : min (start.toNat + size.toNat) xs.length = xs.length := by omega
    rw [hmin, hmin2]
    rw [List.drop_eq_nil_of_le (le_refl _), List.drop_eq_nil_of_le (by omega)]
    simp

/-- C6: `findMany` first filters, then stably sorts, then paginates: the
result's `total` is the number of filter-matched orders, `totalPages` is
`⌈total / pageSize⌉`, `hasMore` is `page < totalPages`, and `data` is the
slice `[(page-1)*pageSize, (page-1)*pageSize + pageSize)` of the sorted
filtered list. -/
theorem claim_C6_find_many (env : DateEnv) (repo : InMemoryOrderRepository)
    (filters : Option OrderQueryFilters) (sort : Option SortOptions)
    (page pageSize : ℤ) (hp : 1 ≤ page) (hs : 1 ≤ pageSize) :
    (InMemoryOrderRepository.findMany env repo filters
        (some ⟨page, pageSize⟩) sort).total =
      (InMemoryOrderRepository.applyFilters env (JsMap.values repo.orders)
        filters).length ∧
    (InMemoryOrderRepository.findMany env repo filters
        (some ⟨page, pageSize⟩) sort).totalPages =
      ⌈((InMemoryOrderRepository.applyFilters env (JsMap.values repo.orders)
          filters).length : ℚ) / (pageSize : ℚ)⌉ ∧
    (InMemoryOrderRepository.findMany env repo filters
        (some ⟨page, pageSize⟩) sort).hasMore =
      decide (page <
        ⌈((InMemoryOrderRepository.applyFilters env (JsMap.values repo.orders)
            filters).length : ℚ) / (pageSize : ℚ)⌉) ∧
    (InMemoryOrderRepository.findMany env repo filters
        (some ⟨page, pageSize⟩) sort).data =
      ((InMemoryOrderRepository.applySorting env
          (InMemoryOrderRepository.applyFilters env (JsMap.values repo.orders)
            filters) sort).drop ((page - 1) * pageSize).toNat).take
        pageSize.toNat := by
  have hlen := length_applySorting env
    (InMemoryOrderRepository.applyFilters env (JsMap.values repo.orders) filters) sort
  refine ⟨?_, ?_, ?_, ?_⟩
  · exact hlen
  · show (⌈((InMemoryOrderRepository.applySorting env
        (InMemoryOrderRepository.applyFilters env (JsMap.values repo.orders)
          filters) sort).length : ℚ) / (pageSize : ℚ)⌉ : ℤ) = _
    rw [hlen]
  · show decide (page < ⌈((InMemoryOrderRepository.applySorting env
        (InMemoryOrderRepository.applyFilters env (JsMap.values repo.orders)
          filters) sort).length : ℚ) / (pageSize : ℚ)⌉) = _
    rw [hlen]
  · show jsSlice (InMemoryOrderRepository.applySorting env
        (InMemoryOrderRepository.applyFilters env (JsMap.values repo.orders)
          filters) sort) ((page - 1) * pageSize) ((page - 1) * pageSize + pageSize) = _
    exact jsSlice_nonneg _ _ _ (mul_nonneg (by omega) (by omega)) (by omega)

/-- C6 witness: page 3 of size 2 over three stored orders, with the page
arithmetic evaluated concretely. -/
theorem claim_C6_find_many_witness :
    ((1:ℤ) ≤ 2) ∧
    (InMemoryOrderRepository.findMany fixtureEnv fixtureRepo none
        (some ⟨2, 2⟩) none).total =
      (InMemoryOrderRepository.applyFilters fixtureEnv
        (JsMap.values fixtureRepo.orders) none).length ∧
    (InMemoryOrderRepository.findMany fixtureEnv fixtureRepo none
        (some ⟨2, 2⟩) none).data =
      ((InMemoryOrderRepository.applySorting fixtureEnv
          (InMemoryOrderRepository.applyFilters fixtureEnv
            (JsMap.values fixtureRepo.orders) none) none).drop
        (((2:ℤ) - 1) * 2).toNat).take (2:ℤ).toNat ∧
    (InMemoryOrderRepository.findMany fixtureEnv fixtureRepo none
        (some ⟨2, 2⟩) none).total = 3 ∧
    (InMemoryOrderRepository.findMany fixtureEnv fixtureRepo none
        (some ⟨2, 2⟩) none).totalPages = 2 ∧
    (InMemoryOrderRepository.findMany fixtureEnv fixtureRepo none
        (some ⟨2, 2⟩) none).hasMore = false ∧
    (InMemoryOrderRepository.findMany fixtureEnv fixtureRepo none
        (some ⟨2, 2⟩) none).data.map (fun o => o.id) = ["id-3"] := by
  have h := claim_C6_find_many fixtureEnv fixtureRepo none none 2 2
    (by decide) (by decide)
  exact ⟨by decide, h.1, h.2.2.2, by decide, by decide, by decide, by decide⟩

/-- Running one more elementary step. -/
theorem runFlat_append (fs : List (Option OrderEvent)) (f : Option OrderEvent) :
    runFlat (fs ++ [f]) = applyFlat (runFlat fs) f := by
  simp [runFlat, List.foldl_append]

/-- Source `specOrders` after one more step. -/
theorem specOrders_append (fs : List (Option OrderEvent)) (f : Option OrderEvent)
    (id : String) :
    specOrders (fs ++ [f]) id =
      match f with
      | none => none
      | some o => if o.id = id then some o else specOrders fs id := by
  cases f <;> simp [specOrders, List.foldl_append]

/-- Source `specIndex` after one more step. -/
theorem specIndex_append (fs : List (Option OrderEvent)) (f : Option OrderEvent)
    (k : String) :
    specIndex (fs ++ [f]) k =
      match f with
      | none => none
      | some o =>
        if InMemoryOrderRepository.getExternalKey o.externalOrderId o.partnerId = k
        then some o else specIndex fs k := by
  cases f <;> simp [specIndex, List.foldl_append]

/-- Simulation: after any elementary step sequence, the primary map realizes
`specOrders` and the external-id index realizes `specIndex` (pointing at the
latest saved order's id per external key). -/
theorem runFlat_sim (fs : List (Option OrderEvent)) :
    (∀ id, JsMap.get (runFlat fs).orders id = specOrders fs id) ∧
    (∀ k, JsMap.get (runFlat fs).externalIdIndex k =
      (specIndex fs k).map (fun o => o.id)) := by
  induction fs using List.reverseRecOn with
  | nil => exact ⟨fun id => rfl, fun k => rfl⟩
  | append_singleton fs f ih =>
    rw [runFlat_append]
    cases f with
    | none =>
      refine ⟨fun id => ?_, fun k => ?_⟩
      · rw [specOrders_append]; rfl
      · rw [specIndex_append]; rfl
    | some o =>
      refine ⟨fun id => ?_, fun k => ?_⟩
      · rw [specOrders_append]
        by_cases hid : o.id = id
        · subst hid
          simp [applyFlat, InMemoryOrderRepository.save, JsMap.get_set_self]
        · simp only [applyFlat, InMemoryOrderRepository.save]
          rw [JsMap.get_set_ne _ _ _ _ (fun h => hid h.symm)]
          simp [hid, ih.1 id]
      · rw [specIndex_append]
        by_cases hk : InMemoryOrderRepository.getExternalKey o.externalOrderId o.partnerId = k
        · subst hk
          simp [applyFlat, InMemoryOrderRepository.save, JsMap.get_set_self]
        · simp only [applyFlat, InMemoryOrderRepository.save]
          rw [JsMap.get_set_ne _ _ _ _ (fun h => hk h.symm)]
          simp [hk, ih.2 k]

/-- The order reported by `specIndex` was saved in the step sequence. -/
theorem specIndex_mem {fs : List (Option OrderEvent)} {k : String} {o : OrderEvent}
    (h : specIndex fs k = some o) : some o ∈ fs := by
  induction fs using List.reverseRecOn with
  | nil => simp [specIndex] at h
  | append_singleton fs f ih =>
    rw [specIndex_append] at h
    cases f with
    | none => simp at h
    | some o' =>
      by_cases hk : InMemoryOrderRepository.getExternalKey o'.externalOrderId o'.partnerId = k
      · simp only [hk, if_true] at h
        cases h
        simp
      · simp only [hk, if_false] at h
        exact List.mem_append_left _ (ih h)

/-- The order reported by `specIndex` carries the queried external key. -/
theorem specIndex_key {fs : List (Option OrderEvent)} {k : String} {o : OrderEvent}
    (h : specIndex fs k = some o) :
    InMemoryOrderRepository.getExternalKey o.externalOrderId o.partnerId = k := by
  induction fs using List.reverseRecOn with
  | nil => simp [specIndex] at h
  | append_singleton fs f ih =>
    rw [specIndex_append] at h
    cases f with
    | none => simp at h
    | some o' =>
      by_cases hk : InMemoryOrderRepository.getExternalKey o'.externalOrderId o'.partnerId = k
      · simp only [hk, if_true] at h
        cases h
        exact hk
      · simp only [hk, if_false] at h
        exact ih h

/-- When distinct saved orders have distinct internal ids, the primary map
still holds the `specIndex` order itself under its id. -/
theorem specOrders_of_specIndex {fs : List (Option OrderEvent)} {k : String}
    {o : OrderEvent}
    (hinj : ∀ o1 : OrderEvent, some o1 ∈ fs → ∀ o2 : OrderEvent, some o2 ∈ fs →
      o1.id = o2.id → o1 = o2)
    (h : specIndex fs k = some o) : specOrders fs o.id = some o := by
  induction fs using List.reverseRecOn with
  | nil => simp [specIndex] at h
  | append_singleton fs f ih =>
    rw [specIndex_append] at h
    rw [specOrders_append]
    cases f with
    | none => simp at h
    | some o' =>
      by_cases hk : InMemoryOrderRepository.getExternalKey o'.externalOrderId o'.partnerId = k
      · simp only [hk, if_true] at h
        cases h
        simp
      · simp only [hk, if_false] at h
        have hmem : some o ∈ fs := specIndex_mem h
        have hmem' : (some o' : Option OrderEvent) ∈ fs ++ [some o'] := by simp
        by_cases hid : o'.id = o.id
        · exfalso
          have : o' = o :=
            hinj o' hmem' o (List.mem_append_left _ hmem) hid
          rw [this] at hk
          exact hk (specIndex_key h)
        · simp only [hid, if_false]
          exact ih (fun o1 h1 o2 h2 =>
            hinj o1 (List.mem_append_left _ h1) o2 (List.mem_append_left _ h2)) h

/-- One repository operation is the fold of its elementary steps. -/
theorem RepoOp_apply_eq_foldl (repo : InMemoryOrderRepository) (op : RepoOp) :
    RepoOp.apply repo op = (RepoOp.flatten op).foldl applyFlat repo := by
  cases op with
  | save o => rfl
  | clear => rfl
  | saveBatch os =>
    simp [RepoOp.apply, InMemoryOrderRepository.saveBatch, RepoOp.flatten,
      List.foldl_map, applyFlat]

/-- Running an operation sequence equals running its elementary steps. -/
theorem runOps_eq_runFlat (ops : List RepoOp) : runOps ops = runFlat (flatOps ops) := by
  induction ops using List.reverseRecOn with
  | nil => rfl
  | append_singleton ops op ih =>
    have h1 : flatOps (ops ++ [op]) = flatOps ops ++ RepoOp.flatten op := by
      simp [flatOps, List.flatMap_append]
    calc runOps (ops ++ [op])
        = RepoOp.apply (runOps ops) op := by
          simp [runOps, List.foldl_append]
      _ = (RepoOp.flatten op).foldl applyFlat (runOps ops) :=
          RepoOp_apply_eq_foldl _ _
      _ = (RepoOp.flatten op).foldl applyFlat (runFlat (flatOps ops)) := by rw [ih]
      _ = runFlat (flatOps ops ++ RepoOp.flatten op) := by
          simp [runFlat, List.foldl_append]
      _ = runFlat (flatOps (ops ++ [op])) := by rw [h1]

/-- Membership in `savedOrders` matches saves among the elementary steps. -/
theorem mem_savedOrders_iff {ops : List RepoOp} {o : OrderEvent} :
    o ∈ savedOrders ops ↔ some o ∈ flatOps ops := by
  simp only [savedOrders, flatOps, List.mem_flatMap]
  constructor
  · rintro ⟨op, hop, hmem⟩
    refine ⟨op, hop, ?_⟩
    cases op with
    | save o' => simp_all [RepoOp.flatten]
    | saveBatch os =>
      simp only [RepoOp.flatten]
      exact List.mem_map_of_mem some hmem
    | clear => simp_all
  · rintro ⟨op, hop, hmem⟩
    refine ⟨op, hop, ?_⟩
    cases op with
    | save o' => simp_all [RepoOp.flatten]
    | saveBatch os =>
      simp only [RepoOp.flatten, List.mem_map] at hmem
      obtain ⟨x, hx, hEq⟩ := hmem
      injection hEq with hxo
      subst hxo
      exact hx
    | clear => simp_all [RepoOp.flatten]

/-- Source `findByExternalId` realizes `specIndex` when ids are non-empty and
distinct orders have distinct ids. -/
theorem findByExternalId_eq_specIndex (ops : List RepoOp)
    (hne : ∀ o ∈ savedOrders ops, o.id ≠ "")
    (hinj : ∀ o1 ∈ savedOrders ops, ∀ o2 ∈ savedOrders ops, o1.id = o2.id → o1 = o2)
    (e : String) (p : PartnerId) :
    InMemoryOrderRepository.findByExternalId (runOps ops) e p =
      specIndex (flatOps ops) (InMemoryOrderRepository.getExternalKey e p) := by
  have hsim := runFlat_sim (flatOps ops)
  rw [runOps_eq_runFlat]
  unfold InMemoryOrderRepository.findByExternalId
  rw [hsim.2]
  cases hidx : specIndex (flatOps ops) (InMemoryOrderRepository.getExternalKey e p) with
  | none => rfl
  | some o =>
    have homem : o ∈ savedOrders ops := mem_savedOrders_iff.mpr (specIndex_mem hidx)
    have hid : o.id ≠ "" := hne o homem
    simp only [Option.map_some', if_neg hid]
    rw [hsim.1]
    exact specOrders_of_specIndex
      (fun o1 h1 o2 h2 =>
        hinj o1 (mem_savedOrders_iff.mpr h1) o2 (mem_savedOrders_iff.mpr h2)) hidx

/-- C9 counterexample: after saving an order whose internal id is the empty
string, the external-id index contains the key (`existsByExternalId` is
true) while `findByExternalId` returns null, because the empty id read from
the index is falsy; the claimed equivalence fails. -/
theorem claim_C9_counterexample :
    InMemoryOrderRepository.existsByExternalId (runOps [RepoOp.save emptyIdOrder])
      "ORD-1" PartnerId.PARTNER_A = true ∧
    InMemoryOrderRepository.findByExternalId (runOps [RepoOp.save emptyIdOrder])
      "ORD-1" PartnerId.PARTNER_A = none := by
  decide

/-- C9 (amended): over every sequence of `save`, `saveBatch` and `clear`
operations in which every saved order has a non-empty internal id and
distinct saved orders have distinct ids, (i) every id stored in the
external-id index refers to an order present in the primary map, (ii)
`existsByExternalId` is true exactly when `findByExternalId` returns an
order, and (iii) `findByExternalId` returns the most recently saved order
with that `(partnerId, externalOrderId)` key (with saves before the latest
clear forgotten). -/
theorem claim_C9_repository_index (ops : List RepoOp)
    (hne : ∀ o ∈ savedOrders ops, o.id ≠ "")
    (hinj : ∀ o1 ∈ savedOrders ops, ∀ o2 ∈ savedOrders ops, o1.id = o2.id → o1 = o2) :
    (∀ (k id : String), JsMap.get (runOps ops).externalIdIndex k = some id →
      ∃ o : OrderEvent, JsMap.get (runOps ops).orders id = some o) ∧
    (∀ (e : String) (p : PartnerId),
      InMemoryOrderRepository.existsByExternalId (runOps ops) e p = true ↔
        (InMemoryOrderRepository.findByExternalId (runOps ops) e p).isSome = true) ∧
    (∀ (e : String) (p : PartnerId),
      InMemoryOrderRepository.findByExternalId (runOps ops) e p =
        lastSavedWithKey ops e p) := by
  have hsim := runFlat_sim (flatOps ops)
  have hinj' : ∀ o1 : OrderEvent, some o1 ∈ flatOps ops →
      ∀ o2 : OrderEvent, some o2 ∈ flatOps ops → o1.id = o2.id → o1 = o2 :=
    fun o1 h1 o2 h2 =>
      hinj o1 (mem_savedOrders_iff.mpr h1) o2 (mem_savedOrders_iff.mpr h2)
  refine ⟨?_, ?_, ?_⟩
  · intro k id h
    rw [runOps_eq_runFlat] at h ⊢
    rw [hsim.2] at h
    rw [Option.map_eq_some'] at h
    obtain ⟨o, hidx, hid⟩ := h
    subst hid
    refine ⟨o, ?_⟩
    rw [hsim.1]
    exact specOrders_of_specIndex hinj' hidx
  · intro e p
    rw [findByExternalId_eq_specIndex ops hne hinj e p]
    unfold InMemoryOrderRepository.existsByExternalId JsMap.has
    rw [runOps_eq_runFlat, hsim.2]
    cases specIndex (flatOps ops) (InMemoryOrderRepository.getExternalKey e p) <;> simp
  · intro e p
    rw [findByExternalId_eq_specIndex ops hne hinj e p]
    rfl

/-- C9 witness: a concrete history with a clear, a batch and a duplicate
external key; the duplicate resolves to the most recently saved body and the
cleared key is forgotten. -/
theorem claim_C9_repository_index_witness :
    (InMemoryOrderRepository.existsByExternalId (runOps fixtureOps) "ORD-1"
        PartnerId.PARTNER_A = true ↔
      (InMemoryOrderRepository.findByExternalId (runOps fixtureOps) "ORD-1"
        PartnerId.PARTNER_A).isSome = true) ∧
    InMemoryOrderRepository.findByExternalId (runOps fixtureOps) "ORD-1"
        PartnerId.PARTNER_A =
      lastSavedWithKey fixtureOps "ORD-1" PartnerId.PARTNER_A ∧
    lastSavedWithKey fixtureOps "ORD-1" PartnerId.PARTNER_A = some fixtureOrder1v2 ∧
    InMemoryOrderRepository.findByExternalId (runOps fixtureOps) "ORD-3"
        PartnerId.PARTNER_A = none := by
  have h := claim_C9_repository_index fixtureOps (by decide) (by decide)
  exact ⟨h.2.1 "ORD-1" PartnerId.PARTNER_A, h.2.2 "ORD-1" PartnerId.PARTNER_A,
    by decide, by decide⟩
